import Mathlib

/-! # moveit_simple_grasps: the grasp candidate generator

A shallow embedding of `src/moveit_simple_grasps.cpp`.

* Scalars (`double` in the source) are an arbitrary linearly ordered field `S`; the
  calls into libm and Eigen (`sin`, `cos`, `M_PI`, `sqrt`, the conversion to `int`) and
  the narrowing of a `double` to the `float32` of a message field are the fields of
  `MathLib S`.  `exactMath` is their reading over the real numbers.
* The counter `grasp_id` is a 32-bit `int`: its increment wraps around (`wrapInt32`).
  The configuration value `angle_resolution_` and the loop index are integers; the loop
  index stays below `2^31` unless the vector holds `2^32` grasps.
* The hidden state of the generator (the function-local `static int grasp_id`, the
  members `object_global_transform_` and `animate_`, what `rviz_tools_->isMuted()`
  answers, and the calls issued to `rviz_tools_`) is the explicit record `Generator`.
  The by-reference vector `possible_grasps` is passed in and returned.
-/

namespace MoveItSimpleGrasps

/-! ## Geometry (Eigen, tf) -/

/-- Eigen::Vector3d, geometry_msgs::Point and geometry_msgs::Vector3. -/
structure Vec3 (S : Type) where
  x : S
  y : S
  z : S

/-- Eigen 3x3 matrix, entry `mij` is row `i`, column `j`. -/
structure Mat3 (S : Type) where
  m00 : S
  m01 : S
  m02 : S
  m10 : S
  m11 : S
  m12 : S
  m20 : S
  m21 : S
  m22 : S

/-- Eigen::Quaterniond and geometry_msgs::Quaternion. -/
structure Quat (S : Type) where
  x : S
  y : S
  z : S
  w : S

/-- Eigen::Affine3d: a linear part and a translation. -/
structure Affine3 (S : Type) where
  linear : Mat3 S
  translation : Vec3 S

/-- The libm and Eigen primitives the source calls, for the scalar type `S`. -/
structure MathLib (S : Type) where
  sin : S → S
  cos : S → S
  pi : S
  sqrt : S → S
  toInt : S → Int
  /-- The value a `float32` message field holds after a `double` is assigned to it. -/
  toFloat32 : S → S

section Geometry

variable {S : Type} [LinearOrderedField S]

/-- Matrix product. -/
def Mat3.mul (a b : Mat3 S) : Mat3 S :=
  { m00 := a.m00 * b.m00 + a.m01 * b.m10 + a.m02 * b.m20
    m01 := a.m00 * b.m01 + a.m01 * b.m11 + a.m02 * b.m21
    m02 := a.m00 * b.m02 + a.m01 * b.m12 + a.m02 * b.m22
    m10 := a.m10 * b.m00 + a.m11 * b.m10 + a.m12 * b.m20
    m11 := a.m10 * b.m01 + a.m11 * b.m11 + a.m12 * b.m21
    m12 := a.m10 * b.m02 + a.m11 * b.m12 + a.m12 * b.m22
    m20 := a.m20 * b.m00 + a.m21 * b.m10 + a.m22 * b.m20
    m21 := a.m20 * b.m01 + a.m21 * b.m11 + a.m22 * b.m21
    m22 := a.m20 * b.m02 + a.m21 * b.m12 + a.m22 * b.m22 }

/-- Matrix times column vector. -/
def Mat3.mulVec (a : Mat3 S) (v : Vec3 S) : Vec3 S :=
  { x := a.m00 * v.x + a.m01 * v.y + a.m02 * v.z
    y := a.m10 * v.x + a.m11 * v.y + a.m12 * v.z
    z := a.m20 * v.x + a.m21 * v.y + a.m22 * v.z }

/-- Vector sum. -/
def Vec3.add (a b : Vec3 S) : Vec3 S :=
  { x := a.x + b.x, y := a.y + b.y, z := a.z + b.z }

/-- Composition of affine transforms, `a * b` in Eigen. -/
def Affine3.mul (a b : Affine3 S) : Affine3 S :=
  { linear := a.linear.mul b.linear
    translation := (a.linear.mulVec b.translation).add a.translation }

/-- The rotation `Eigen::AngleAxisd(angle, Eigen::Vector3d::UnitX())`, as its rotation
matrix.  Eigen multiplies angle-axis rotations as quaternions and turns the product into a
matrix when it is assigned to the `Affine3d`; the embedding composes the matrices. -/
def angleAxisUnitX (M : MathLib S) (angle : S) : Mat3 S :=
  { m00 := 1, m01 := 0, m02 := 0
    m10 := 0, m11 := M.cos angle, m12 := -M.sin angle
    m20 := 0, m21 := M.sin angle, m22 := M.cos angle }

/-- The rotation `Eigen::AngleAxisd(angle, Eigen::Vector3d::UnitY())`. -/
def angleAxisUnitY (M : MathLib S) (angle : S) : Mat3 S :=
  { m00 := M.cos angle, m01 := 0, m02 := M.sin angle
    m10 := 0, m11 := 1, m12 := 0
    m20 := -M.sin angle, m21 := 0, m22 := M.cos angle }

/-- The rotation `Eigen::AngleAxisd(angle, Eigen::Vector3d::UnitZ())`. -/
def angleAxisUnitZ (M : MathLib S) (angle : S) : Mat3 S :=
  { m00 := M.cos angle, m01 := -M.sin angle, m02 := 0
    m10 := M.sin angle, m11 := M.cos angle, m12 := 0
    m20 := 0, m21 := 0, m22 := 1 }

/-- Eigen `Quaternion::toRotationMatrix` (no normalisation). -/
def Quat.toRotationMatrix (q : Quat S) : Mat3 S :=
  let tx := 2 * q.x
  let ty := 2 * q.y
  let tz := 2 * q.z
  let twx := tx * q.w
  let twy := ty * q.w
  let twz := tz * q.w
  let txx := tx * q.x
  let txy := ty * q.x
  let txz := tz * q.x
  let tyy := ty * q.y
  let tyz := tz * q.y
  let tzz := tz * q.z
  { m00 := 1 - (tyy + tzz), m01 := txy - twz, m02 := txz + twy
    m10 := txy + twz, m11 := 1 - (txx + tzz), m12 := tyz - twx
    m20 := txz - twy, m21 := tyz + twx, m22 := 1 - (txx + tyy) }

/-- Eigen's conversion of a rotation matrix to a quaternion (by the trace when it is
positive, else by the largest diagonal entry), as `tf::poseEigenToMsg` uses it. -/
def Mat3.toQuaternion (M : MathLib S) (m : Mat3 S) : Quat S :=
  let t := m.m00 + m.m11 + m.m22
  if 0 < t then
    let r := M.sqrt (t + 1)
    let u := (1 / 2) / r
    { w := (1 / 2) * r, x := (m.m21 - m.m12) * u, y := (m.m02 - m.m20) * u,
      z := (m.m10 - m.m01) * u }
  else if m.m00 < m.m22 ∧ m.m11 < m.m22 then
    let r := M.sqrt (m.m22 - m.m00 - m.m11 + 1)
    let u := (1 / 2) / r
    { z := (1 / 2) * r, w := (m.m10 - m.m01) * u, x := (m.m02 + m.m20) * u,
      y := (m.m12 + m.m21) * u }
  else if m.m00 < m.m11 then
    let r := M.sqrt (m.m11 - m.m22 - m.m00 + 1)
    let u := (1 / 2) / r
    { y := (1 / 2) * r, w := (m.m02 - m.m20) * u, z := (m.m21 + m.m12) * u,
      x := (m.m01 + m.m10) * u }
  else
    let r := M.sqrt (m.m00 - m.m11 - m.m22 + 1)
    let u := (1 / 2) / r
    { x := (1 / 2) * r, w := (m.m21 - m.m12) * u, y := (m.m10 + m.m01) * u,
      z := (m.m20 + m.m02) * u }

end Geometry

/-! ## Messages and configuration -/

/-- The part of std_msgs::Header the source writes: `stamp` and `frame_id`. -/
structure Header where
  stamp : Nat
  frame_id : String

/-- Message geometry_msgs::Pose. -/
structure Pose (S : Type) where
  position : Vec3 S
  orientation : Quat S

/-- Message geometry_msgs::PoseStamped. -/
structure PoseStamped (S : Type) where
  header : Header
  pose : Pose S

/-- Message geometry_msgs::Vector3Stamped. -/
structure Vector3Stamped (S : Type) where
  header : Header
  vector : Vec3 S

/-- Message moveit_msgs::GripperTranslation.  The two distances are `float32` fields: what
is stored in them has gone through `MathLib.toFloat32`. -/
structure GripperTranslation (S : Type) where
  direction : Vector3Stamped S
  desired_distance : S
  min_distance : S

/-- Modelled from the spec: trajectory_msgs::JointTrajectory is declared outside the
source file; the generator only copies it ("opaque joint/posture descriptors ... passed
through unmodified"), so it is kept as joint names with their target positions. -/
structure JointTrajectory (S : Type) where
  joint_names : List String
  positions : List S

/-- Message moveit_msgs::Grasp, the fields the generator writes. -/
structure Grasp (S : Type) where
  id : String
  pre_grasp_posture : JointTrajectory S
  grasp_posture : JointTrajectory S
  grasp_pose : PoseStamped S
  grasp_quality : S
  pre_grasp_approach : GripperTranslation S
  post_grasp_retreat : GripperTranslation S
  max_contact_force : S

/-- The enum grasp_axis_t. -/
inductive grasp_axis_t where
  | X_AXIS
  | Y_AXIS
  | Z_AXIS
  deriving DecidableEq, Repr

/-- The enum grasp_direction_t. -/
inductive grasp_direction_t where
  | UP
  | DOWN
  deriving DecidableEq, Repr

/-- The enum grasp_rotation_t. -/
inductive grasp_rotation_t where
  | FULL
  | HALF
  deriving DecidableEq, Repr

/-- Modelled from the spec: `RobotGraspData` is declared in a header that is not part of
the source; these are the fields `generateAxisGrasps` reads, with `angle_resolution_` an
integer ("number of angular steps"). -/
structure RobotGraspData (S : Type) where
  grasp_pose_to_eef_pose_ : Pose S
  pre_grasp_posture_ : JointTrajectory S
  grasp_posture_ : JointTrajectory S
  base_link_ : String
  ee_parent_link_ : String
  grasp_depth_ : S
  angle_resolution_ : Int
  approach_retreat_desired_dist_ : S
  approach_retreat_min_dist_ : S

/-- A call the generator issues to the visualization sink `rviz_tools_`. -/
inductive SinkCall (S : Type) where
  | publishArrow (pose : Pose S)
  | publishText (pose : Pose S) (text : String)
  | publishEEMarkers (pose : Pose S)

/-- The state of one generator: the static `grasp_id` (a 32-bit `int`, kept in range by
`wrapInt32` at its increment), the members
`object_global_transform_` and `animate_`, the answers of `rviz_tools_->isMuted()`,
`ros::ok()` and `ros::Time::now()` (each taken as constant during one call), and the calls
issued to `rviz_tools_` so far (oldest first). -/
structure Generator (S : Type) where
  grasp_id : Int
  object_global_transform_ : Affine3 S
  animate_ : Bool
  muted : Bool
  ros_ok : Bool
  ros_time : Nat
  sink_calls : List (SinkCall S)

section Conversions

variable {S : Type} [LinearOrderedField S]

/-- The conversion tf::poseMsgToEigen: `Translation3d(position) * Quaterniond(orientation)`. -/
def poseMsgToEigen (m : Pose S) : Affine3 S :=
  { linear := m.orientation.toRotationMatrix, translation := m.position }

/-- The conversion tf::poseEigenToMsg: the translation and the quaternion of the linear part. -/
def poseEigenToMsg (M : MathLib S) (e : Affine3 S) : Pose S :=
  { position := e.translation, orientation := e.linear.toQuaternion M }

/-- The function std::max: `(a < b) ? b : a`. -/
def stdMax (a b : S) : S := if a < b then b else a

end Conversions

/-- The value of a 32-bit `int` that is assigned the arithmetic result `n`: two's
complement wrap-around into `-2^31, ..., 2^31 - 1`. -/
def wrapInt32 (n : Int) : Int := (n + 2147483648) % 4294967296 - 2147483648

/-! ## The generator -/

section Generator

variable {S : Type} [LinearOrderedField S]

/-- One pass of the loop `for (percent = 0; percent < 1; percent += 0.1)` of
`animateGrasp`, unrolled at most `fuel` times.  In exact arithmetic the counter takes the
ten values 0, 0.1, ..., 0.9; on IEEE doubles the rounding of the sum lets it take an
eleventh value just below 1, so the program publishes one marker more per grasp than this
function over the real numbers.  The theorems below use of this loop only that it writes
nothing but calls of the sink. -/
def animateLoop (M : MathLib S) (grasp : Grasp S) (grasp_data : RobotGraspData S)
    (grasp_pose_eigen : Affine3 S) : Nat → S → Generator S → Generator S
  | 0, _, g => g
  | fuel + 1, percent, g =>
    if percent < 1 then
      if g.ros_ok = false then g
      else
        let a := grasp.pre_grasp_approach
        let pre_grasp_approach_direction : Vec3 S :=
          { x := -1 * a.direction.vector.x * a.desired_distance * (1 - percent)
            y := -1 * a.direction.vector.y * a.desired_distance * (1 - percent)
            z := -1 * a.direction.vector.z * a.desired_distance * (1 - percent) }
        let pre_grasp_approach_direction_local :=
          if a.direction.header.frame_id = grasp_data.ee_parent_link_ then
            grasp_pose_eigen.linear.mulVec pre_grasp_approach_direction
          else pre_grasp_approach_direction
        let pre_grasp_pose_eigen : Affine3 S :=
          { grasp_pose_eigen with
            translation := grasp_pose_eigen.translation.add pre_grasp_approach_direction_local }
        let pre_grasp_pose := poseEigenToMsg M pre_grasp_pose_eigen
        animateLoop M grasp grasp_data grasp_pose_eigen fuel (percent + 0.1)
          { g with sink_calls := g.sink_calls ++ [SinkCall.publishEEMarkers pre_grasp_pose] }
    else g

/-- The method `animateGrasp`: one text marker, then the end-effector markers of the
approach.  Eleven unrollings exhaust the loop, whose counter reaches 1 after ten steps in
exact arithmetic and after eleven on IEEE doubles.  The percentage in the text is
`int(grasp_quality * 100)`, whose truncation on doubles can differ by one from the
truncation of the exact product. -/
def animateGrasp (M : MathLib S) (grasp : Grasp S) (grasp_data : RobotGraspData S)
    (g : Generator S) : Generator S :=
  let grasp_pose := grasp.grasp_pose.pose
  let grasp_pose_eigen := poseMsgToEigen grasp_pose
  let text := "Grasp Quality: " ++ toString (M.toInt (grasp.grasp_quality * 100)) ++ "%"
  animateLoop M grasp grasp_data grasp_pose_eigen 11 0
    { g with sink_calls := g.sink_calls ++ [SinkCall.publishText grasp_pose text] }

/-- The iterator loop of `visualizeGrasps`, leaving at `!ros::ok()`. -/
def visualizeLoop (M : MathLib S) (grasp_data : RobotGraspData S) :
    List (Grasp S) → Generator S → Generator S
  | [], g => g
  | grasp :: rest, g =>
    if g.ros_ok = false then g
    else visualizeLoop M grasp_data rest (animateGrasp M grasp grasp_data g)

/-- The method `visualizeGrasps`. -/
def visualizeGrasps (M : MathLib S) (possible_grasps : List (Grasp S)) (_object_pose : Pose S)
    (grasp_data : RobotGraspData S) (g : Generator S) : Generator S :=
  if g.muted = true then g
  else if g.animate_ = false then g
  else visualizeLoop M grasp_data possible_grasps g

/-- The variables that live across the iterations of the loop of `generateAxisGrasps`. -/
structure LoopVars (S : Type) where
  theta1 : S
  pre_grasp_approach : GripperTranslation S
  post_grasp_retreat : GripperTranslation S
  grasp_pose_msg : PoseStamped S
  possible_grasps : List (Grasp S)
  gen : Generator S

/-- The `switch(axis)` of the loop body: the grasp pose in the frame of the object, or
`none` where the source returns false (Z axis). -/
def graspPoseOfAxis (M : MathLib S) (axis : grasp_axis_t) (radius theta1 theta2 : S) :
    Option (Affine3 S) :=
  let xb := radius * M.cos theta1
  let yb : S := 0
  let zb := radius * M.sin theta1
  match axis with
  | grasp_axis_t.X_AXIS =>
    some { linear := ((angleAxisUnitX M theta1).mul (angleAxisUnitZ M (-0.5 * M.pi))).mul
                       (angleAxisUnitX M theta2)
           translation := { x := yb, y := xb, z := zb } }
  | grasp_axis_t.Y_AXIS =>
    some { linear := (angleAxisUnitY M (M.pi - theta1)).mul (angleAxisUnitX M theta2)
           translation := { x := xb, y := yb, z := zb } }
  | grasp_axis_t.Z_AXIS => none

/-- A gripper translation with the frame and the direction vector overwritten. -/
def setDirection (t : GripperTranslation S) (frame_id : String) (x y z : S) :
    GripperTranslation S :=
  { t with direction := { header := { t.direction.header with frame_id := frame_id }
                          vector := { x := x, y := y, z := z } } }

/-- One iteration of the loop of `generateAxisGrasps`; `none` is the `return false` of
the Z axis case, taken before anything is written. -/
def graspIteration (M : MathLib S) (axis : grasp_axis_t) (rotation : grasp_rotation_t)
    (grasp_data : RobotGraspData S) (radius theta2 : S) (v : LoopVars S) :
    Option (LoopVars S) :=
  match graspPoseOfAxis M axis radius v.theta1 theta2 with
  | none => none
  | some grasp_pose =>
    let score := M.sin v.theta1
    let grasp_quality := stdMax score 0.1
    let theta1 :=
      match rotation with
      | grasp_rotation_t.HALF => v.theta1 + M.pi / (grasp_data.angle_resolution_ : S)
      | grasp_rotation_t.FULL => v.theta1 + 2 * M.pi / (grasp_data.angle_resolution_ : S)
    let id := "Grasp" ++ toString v.gen.grasp_id
    let grasp_id := wrapInt32 (v.gen.grasp_id + 1)
    let debug_pose := poseEigenToMsg M (v.gen.object_global_transform_.mul grasp_pose)
    let sink_calls := v.gen.sink_calls ++ [SinkCall.publishArrow debug_pose]
    let eef_conversion_pose := poseMsgToEigen grasp_data.grasp_pose_to_eef_pose_
    let grasp_pose := grasp_pose.mul eef_conversion_pose
    let grasp_pose_msg : PoseStamped S :=
      { v.grasp_pose_msg with
        pose := poseEigenToMsg M (v.gen.object_global_transform_.mul grasp_pose) }
    let approach1 := setDirection v.pre_grasp_approach grasp_data.base_link_ 0 0 (-1)
    let retreat1 := setDirection v.post_grasp_retreat grasp_data.base_link_ 0 0 1
    let new_grasp : Grasp S :=
      { id := id
        pre_grasp_posture := grasp_data.pre_grasp_posture_
        grasp_posture := grasp_data.grasp_posture_
        grasp_pose := grasp_pose_msg
        grasp_quality := grasp_quality
        pre_grasp_approach := approach1
        post_grasp_retreat := retreat1
        max_contact_force := 0 }
    let approach2 := setDirection approach1 grasp_data.ee_parent_link_ 0 0 1
    let retreat2 := setDirection retreat1 grasp_data.ee_parent_link_ 0 0 (-1)
    let new_grasp2 : Grasp S :=
      { new_grasp with pre_grasp_approach := approach2, post_grasp_retreat := retreat2 }
    some { theta1 := theta1
           pre_grasp_approach := approach2
           post_grasp_retreat := retreat2
           grasp_pose_msg := grasp_pose_msg
           possible_grasps := (v.possible_grasps ++ [new_grasp]) ++ [new_grasp2]
           gen := { v.gen with grasp_id := grasp_id, sink_calls := sink_calls } }

/-- The loop `for (int i = 0; i <= angle_resolution_; ++i)`, given the number of
iterations still to run.  The flag is false when the body returned false; the variables
are then those at the start of that iteration. -/
def graspLoop (body : LoopVars S → Option (LoopVars S)) : Nat → LoopVars S → Bool × LoopVars S
  | 0, v => (true, v)
  | k + 1, v =>
    match body v with
    | none => (false, v)
    | some v2 => graspLoop body k v2

/-- The method `generateAxisGrasps`: the return value, the vector `possible_grasps` and
the generator after the call.  The index `i` runs over `0, ..., angle_resolution_`, which
is `(angle_resolution_ + 1).toNat` iterations.  Log output is not modelled. -/
def generateAxisGrasps (M : MathLib S) (object_pose : Pose S) (axis : grasp_axis_t)
    (direction : grasp_direction_t) (rotation : grasp_rotation_t)
    (grasp_data : RobotGraspData S) (possible_grasps : List (Grasp S)) (g : Generator S) :
    Bool × List (Grasp S) × Generator S :=
  let g1 : Generator S := { g with object_global_transform_ := poseMsgToEigen object_pose }
  let pre_grasp_approach : GripperTranslation S :=
    { direction := { header := { stamp := g1.ros_time, frame_id := "" }
                     vector := { x := 0, y := 0, z := 0 } }
      desired_distance := M.toFloat32 grasp_data.approach_retreat_desired_dist_
      min_distance := M.toFloat32 grasp_data.approach_retreat_min_dist_ }
  let post_grasp_retreat : GripperTranslation S :=
    { direction := { header := { stamp := g1.ros_time, frame_id := "" }
                     vector := { x := 0, y := 0, z := 0 } }
      desired_distance := M.toFloat32 grasp_data.approach_retreat_desired_dist_
      min_distance := M.toFloat32 grasp_data.approach_retreat_min_dist_ }
  let grasp_pose_msg : PoseStamped S :=
    { header := { stamp := g1.ros_time, frame_id := grasp_data.base_link_ }
      pose := { position := { x := 0, y := 0, z := 0 }
                orientation := { x := 0, y := 0, z := 0, w := 0 } } }
  let radius := grasp_data.grasp_depth_
  let theta1 : S := 0
  let theta2 : S := if direction = grasp_direction_t.DOWN then M.pi else 0
  let r := graspLoop (graspIteration M axis rotation grasp_data radius theta2)
    (grasp_data.angle_resolution_ + 1).toNat
    { theta1 := theta1
      pre_grasp_approach := pre_grasp_approach
      post_grasp_retreat := post_grasp_retreat
      grasp_pose_msg := grasp_pose_msg
      possible_grasps := possible_grasps
      gen := g1 }
  if r.1 = false then (false, r.2.possible_grasps, r.2.gen)
  else
    (true, r.2.possible_grasps,
      visualizeGrasps M r.2.possible_grasps object_pose grasp_data r.2.gen)

/-- The method `generateAllGrasps`: four calls whose return values are dropped. -/
def generateAllGrasps (M : MathLib S) (object_pose : Pose S) (grasp_data : RobotGraspData S)
    (possible_grasps : List (Grasp S)) (g : Generator S) :
    Bool × List (Grasp S) × Generator S :=
  let r1 := generateAxisGrasps M object_pose grasp_axis_t.X_AXIS grasp_direction_t.DOWN
    grasp_rotation_t.HALF grasp_data possible_grasps g
  let r2 := generateAxisGrasps M object_pose grasp_axis_t.X_AXIS grasp_direction_t.UP
    grasp_rotation_t.HALF grasp_data r1.2.1 r1.2.2
  let r3 := generateAxisGrasps M object_pose grasp_axis_t.Y_AXIS grasp_direction_t.DOWN
    grasp_rotation_t.HALF grasp_data r2.2.1 r2.2.2
  let r4 := generateAxisGrasps M object_pose grasp_axis_t.Y_AXIS grasp_direction_t.UP
    grasp_rotation_t.HALF grasp_data r3.2.1 r3.2.2
  (true, r4.2.1, r4.2.2)

/-! ## Closed forms used by the proofs -/

/-- The grasp pose in the frame of the object for the axes that have one (zero for Z). -/
def localGraspPose (M : MathLib S) (axis : grasp_axis_t) (radius theta1 theta2 : S) :
    Affine3 S :=
  match graspPoseOfAxis M axis radius theta1 theta2 with
  | some p => p
  | none =>
    { linear := { m00 := 0, m01 := 0, m02 := 0, m10 := 0, m11 := 0, m12 := 0,
                  m20 := 0, m21 := 0, m22 := 0 }
      translation := { x := 0, y := 0, z := 0 } }

/-- What one iteration adds to `theta1`. -/
def thetaIncrement (M : MathLib S) (rotation : grasp_rotation_t)
    (grasp_data : RobotGraspData S) : S :=
  match rotation with
  | grasp_rotation_t.HALF => M.pi / (grasp_data.angle_resolution_ : S)
  | grasp_rotation_t.FULL => 2 * M.pi / (grasp_data.angle_resolution_ : S)

/-- The pose handed to `publishArrow` by the iteration that starts at `theta1`. -/
def debugPose (M : MathLib S) (axis : grasp_axis_t) (radius theta2 : S) (v : LoopVars S)
    (theta1 : S) : Pose S :=
  poseEigenToMsg M (v.gen.object_global_transform_.mul (localGraspPose M axis radius theta1 theta2))

/-- The grasp pushed by the iteration that starts at `theta1` with the counter at
`grasp_id`: the first one (`second = false`) or the second one. -/
def candidate (M : MathLib S) (axis : grasp_axis_t) (grasp_data : RobotGraspData S)
    (radius theta2 : S) (v : LoopVars S) (theta1 : S) (grasp_id : Int) (second : Bool) :
    Grasp S :=
  { id := "Grasp" ++ toString grasp_id
    pre_grasp_posture := grasp_data.pre_grasp_posture_
    grasp_posture := grasp_data.grasp_posture_
    grasp_pose :=
      { v.grasp_pose_msg with
        pose := poseEigenToMsg M (v.gen.object_global_transform_.mul
          ((localGraspPose M axis radius theta1 theta2).mul
            (poseMsgToEigen grasp_data.grasp_pose_to_eef_pose_))) }
    grasp_quality := stdMax (M.sin theta1) 0.1
    pre_grasp_approach :=
      if second = true then setDirection v.pre_grasp_approach grasp_data.ee_parent_link_ 0 0 1
      else setDirection v.pre_grasp_approach grasp_data.base_link_ 0 0 (-1)
    post_grasp_retreat :=
      if second = true then setDirection v.post_grasp_retreat grasp_data.ee_parent_link_ 0 0 (-1)
      else setDirection v.post_grasp_retreat grasp_data.base_link_ 0 0 1
    max_contact_force := 0 }

/-- The loop variables after one iteration for axis X or Y, in closed form. -/
def nextVars (M : MathLib S) (axis : grasp_axis_t) (rotation : grasp_rotation_t)
    (grasp_data : RobotGraspData S) (radius theta2 : S) (v : LoopVars S) : LoopVars S :=
  { theta1 := v.theta1 + thetaIncrement M rotation grasp_data
    pre_grasp_approach := setDirection v.pre_grasp_approach grasp_data.ee_parent_link_ 0 0 1
    post_grasp_retreat := setDirection v.post_grasp_retreat grasp_data.ee_parent_link_ 0 0 (-1)
    grasp_pose_msg :=
      (candidate M axis grasp_data radius theta2 v v.theta1 v.gen.grasp_id false).grasp_pose
    possible_grasps := v.possible_grasps ++
      [candidate M axis grasp_data radius theta2 v v.theta1 v.gen.grasp_id false,
       candidate M axis grasp_data radius theta2 v v.theta1 v.gen.grasp_id true]
    gen := { v.gen with
      grasp_id := wrapInt32 (v.gen.grasp_id + 1)
      sink_calls := v.gen.sink_calls ++
        [SinkCall.publishArrow (debugPose M axis radius theta2 v v.theta1)] } }

/-- The counter `grasp_id` after `j` increments, started at `c`. -/
def counterAfter (c : Int) : Nat → Int
  | 0 => c
  | j + 1 => counterAfter (wrapInt32 (c + 1)) j

/-- The grasps of samples `0, ..., k - 1`, two per sample. -/
def candidateBlock (c : Nat → Bool → Grasp S) : Nat → List (Grasp S)
  | 0 => []
  | k + 1 => candidateBlock c k ++ [c k false, c k true]

/-- The arrows of samples `0, ..., k - 1`. -/
def arrowBlock (p : Nat → Pose S) : Nat → List (SinkCall S)
  | 0 => []
  | k + 1 => arrowBlock p k ++ [SinkCall.publishArrow (p k)]

/-- The loop variables `generateAxisGrasps` enters its loop with. -/
def initialVars (M : MathLib S) (object_pose : Pose S) (grasp_data : RobotGraspData S)
    (possible_grasps : List (Grasp S)) (g : Generator S) : LoopVars S :=
  { theta1 := 0
    pre_grasp_approach :=
      { direction := { header := { stamp := g.ros_time, frame_id := "" }
                       vector := { x := 0, y := 0, z := 0 } }
        desired_distance := M.toFloat32 grasp_data.approach_retreat_desired_dist_
        min_distance := M.toFloat32 grasp_data.approach_retreat_min_dist_ }
    post_grasp_retreat :=
      { direction := { header := { stamp := g.ros_time, frame_id := "" }
                       vector := { x := 0, y := 0, z := 0 } }
        desired_distance := M.toFloat32 grasp_data.approach_retreat_desired_dist_
        min_distance := M.toFloat32 grasp_data.approach_retreat_min_dist_ }
    grasp_pose_msg :=
      { header := { stamp := g.ros_time, frame_id := grasp_data.base_link_ }
        pose := { position := { x := 0, y := 0, z := 0 }
                  orientation := { x := 0, y := 0, z := 0, w := 0 } } }
    possible_grasps := possible_grasps
    gen := { g with object_global_transform_ := poseMsgToEigen object_pose } }

/-- The angle `theta2` of a direction. -/
def theta2Of (M : MathLib S) (direction : grasp_direction_t) : S :=
  if direction = grasp_direction_t.DOWN then M.pi else 0

/-- The grasp at index `2 * j` (`second = false`) or `2 * j + 1` of the block one call of
`generateAxisGrasps` appends, in closed form. -/
def newGrasp (M : MathLib S) (object_pose : Pose S) (axis : grasp_axis_t)
    (direction : grasp_direction_t) (rotation : grasp_rotation_t)
    (grasp_data : RobotGraspData S) (g : Generator S) (j : Nat) (second : Bool) : Grasp S :=
  candidate M axis grasp_data grasp_data.grasp_depth_ (theta2Of M direction)
    (initialVars M object_pose grasp_data [] g)
    (0 + (j : S) * thetaIncrement M rotation grasp_data) (counterAfter g.grasp_id j) second

/-- The block one call of `generateAxisGrasps` appends for axis X or Y, in closed form. -/
def newGrasps (M : MathLib S) (object_pose : Pose S) (axis : grasp_axis_t)
    (direction : grasp_direction_t) (rotation : grasp_rotation_t)
    (grasp_data : RobotGraspData S) (g : Generator S) : List (Grasp S) :=
  candidateBlock (newGrasp M object_pose axis direction rotation grasp_data g)
    (grasp_data.angle_resolution_ + 1).toNat

/-- The calls to `publishArrow` one call of `generateAxisGrasps` issues for axis X or Y,
in closed form. -/
def newArrows (M : MathLib S) (object_pose : Pose S) (axis : grasp_axis_t)
    (direction : grasp_direction_t) (rotation : grasp_rotation_t)
    (grasp_data : RobotGraspData S) (g : Generator S) : List (SinkCall S) :=
  arrowBlock (fun j => debugPose M axis grasp_data.grasp_depth_ (theta2Of M direction)
      (initialVars M object_pose grasp_data [] g)
      (0 + (j : S) * thetaIncrement M rotation grasp_data))
    (grasp_data.angle_resolution_ + 1).toNat

/-- A grasp without its name and its time stamps: the fields of a candidate the
specification lists besides `id`. -/
def Grasp.content (x : Grasp S) : Grasp S :=
  { x with
    id := ""
    grasp_pose := { x.grasp_pose with header := { x.grasp_pose.header with stamp := 0 } }
    pre_grasp_approach :=
      { x.pre_grasp_approach with
        direction := { x.pre_grasp_approach.direction with
          header := { x.pre_grasp_approach.direction.header with stamp := 0 } } }
    post_grasp_retreat :=
      { x.post_grasp_retreat with
        direction := { x.post_grasp_retreat.direction with
          header := { x.post_grasp_retreat.direction.header with stamp := 0 } } } }

/-- One call of `generateAxisGrasps` with rotation HALF on an empty vector. -/
def halfSweep (M : MathLib S) (object_pose : Pose S) (grasp_data : RobotGraspData S)
    (axis : grasp_axis_t) (direction : grasp_direction_t) (g : Generator S) :
    Bool × List (Grasp S) × Generator S :=
  generateAxisGrasps M object_pose axis direction grasp_rotation_t.HALF grasp_data [] g

/-- The transpose of a matrix. -/
def Mat3.transpose (a : Mat3 S) : Mat3 S :=
  { m00 := a.m00, m01 := a.m10, m02 := a.m20
    m10 := a.m01, m11 := a.m11, m12 := a.m21
    m20 := a.m02, m21 := a.m12, m22 := a.m22 }

/-- The identity matrix. -/
def Mat3.one : Mat3 S :=
  { m00 := 1, m01 := 0, m02 := 0
    m10 := 0, m11 := 1, m12 := 0
    m20 := 0, m21 := 0, m22 := 1 }

/-- The determinant of a matrix. -/
def Mat3.det (a : Mat3 S) : S :=
  a.m00 * (a.m11 * a.m22 - a.m12 * a.m21) - a.m01 * (a.m10 * a.m22 - a.m12 * a.m20)
    + a.m02 * (a.m10 * a.m21 - a.m11 * a.m20)

/-- A matrix is a proper rotation: orthogonal with determinant 1. -/
def Mat3.IsProperRotation (a : Mat3 S) : Prop :=
  a.mul a.transpose = Mat3.one ∧ a.transpose.mul a = Mat3.one ∧ a.det = 1

/-- The vector `c * v`. -/
def Vec3.scale (c : S) (v : Vec3 S) : Vec3 S :=
  { x := c * v.x, y := c * v.y, z := c * v.z }

/-- The squared Euclidean distance of two points. -/
def Vec3.distSq (a b : Vec3 S) : S :=
  (a.x - b.x) * (a.x - b.x) + (a.y - b.y) * (a.y - b.y) + (a.z - b.z) * (a.z - b.z)

/-- The Euclidean distance of two points. -/
def Vec3.dist (M : MathLib S) (a b : Vec3 S) : S := M.sqrt (a.distSq b)

/-- The squared norm of a quaternion. -/
def Quat.normSq (q : Quat S) : S := q.x * q.x + q.y * q.y + q.z * q.z + q.w * q.w

/-- The generator `h` differs from `g` at most in the calls its sink has received. -/
def Generator.sameButSink (g h : Generator S) : Prop :=
  h.grasp_id = g.grasp_id ∧ h.object_global_transform_ = g.object_global_transform_ ∧
  h.animate_ = g.animate_ ∧ h.muted = g.muted ∧ h.ros_ok = g.ros_ok ∧
  h.ros_time = g.ros_time

end Generator

/-! ## The reading over the real numbers, and concrete inputs -/

/-- The integer nearest to `y`, the even one of the two when `y` lies half way. -/
noncomputable def roundNearestEven (y : ℝ) : Int :=
  if y - (⌊y⌋ : ℝ) < 1 / 2 then ⌊y⌋
  else if 1 / 2 < y - (⌊y⌋ : ℝ) then ⌊y⌋ + 1
  else if ⌊y⌋ % 2 = 0 then ⌊y⌋ else ⌊y⌋ + 1

/-- The real number an IEEE binary32 holds after `x` is assigned to it: `x` rounded to
the nearest multiple of `2 ^ (e - 23)`, where `2 ^ e ≤ |x| < 2 ^ (e + 1)` and `e` is at
least -126 (below, the spacing of the subnormal numbers).  Magnitudes from `2 ^ 128` on
become an infinity in the program, which no real number stands for; the function rounds
them as if the exponent range had no upper end. -/
noncomputable def roundToFloat32 (x : ℝ) : ℝ :=
  if x = 0 then 0
  else
    (roundNearestEven (x / (2 : ℝ) ^ (max (Int.log 2 |x|) (-126) - 23)) : ℝ)
      * (2 : ℝ) ^ (max (Int.log 2 |x|) (-126) - 23)

/-- The primitives over the real numbers; `toInt` truncates towards zero, `toFloat32`
rounds to the nearest binary32. -/
noncomputable def exactMath : MathLib ℝ :=
  { sin := Real.sin
    cos := Real.cos
    pi := Real.pi
    sqrt := Real.sqrt
    toInt := fun x => if 0 ≤ x then ⌊x⌋ else ⌈x⌉
    toFloat32 := roundToFloat32 }

/-- The identity pose at the origin. -/
noncomputable def identityPose : Pose ℝ :=
  { position := { x := 0, y := 0, z := 0 }
    orientation := { x := 0, y := 0, z := 0, w := 1 } }

/-- A configuration with grasp depth 0.1 and the given angle resolution. -/
noncomputable def scenarioData (angle_resolution : Int) : RobotGraspData ℝ :=
  { grasp_pose_to_eef_pose_ := identityPose
    pre_grasp_posture_ := { joint_names := ["gripper_joint"], positions := [1] }
    grasp_posture_ := { joint_names := ["gripper_joint"], positions := [0] }
    base_link_ := "base_link"
    ee_parent_link_ := "gripper_link"
    grasp_depth_ := 0.1
    angle_resolution_ := angle_resolution
    approach_retreat_desired_dist_ := 0.6
    approach_retreat_min_dist_ := 0.4 }

/-- A generator as its constructor leaves it, before any call: counter 0, `animate_`
false, a sink that is not muted and has received nothing. -/
noncomputable def freshGenerator : Generator ℝ :=
  { grasp_id := 0
    object_global_transform_ := poseMsgToEigen identityPose
    animate_ := false
    muted := false
    ros_ok := true
    ros_time := 0
    sink_calls := [] }

/-- A fresh generator whose sink reports itself muted. -/
noncomputable def mutedGenerator : Generator ℝ := { freshGenerator with muted := true }

/-! ## Lemmas -/

section Lemmas

set_option linter.unusedSectionVars false

variable {S : Type} [LinearOrderedField S]

theorem candidateBlock_length (c : Nat → Bool → Grasp S) (k : Nat) :
    (candidateBlock c k).length = 2 * k := by
  induction k with
  | zero => rfl
  | succ k ih => simp [candidateBlock, ih]; omega

theorem candidateBlock_succ_front (c : Nat → Bool → Grasp S) (k : Nat) :
    candidateBlock c (k + 1)
      = [c 0 false, c 0 true] ++ candidateBlock (fun j b => c (j + 1) b) k := by
  induction k with
  | zero => rfl
  | succ k ih =>
    have h1 : candidateBlock c (k + 1 + 1)
        = candidateBlock c (k + 1) ++ [c (k + 1) false, c (k + 1) true] := rfl
    rw [h1, ih]
    simp [candidateBlock]

theorem candidateBlock_getElem?_even (c : Nat → Bool → Grasp S) (k i : Nat) (h : i < k) :
    (candidateBlock c k)[2 * i]? = some (c i false) := by
  induction k with
  | zero => omega
  | succ k ih =>
    simp only [candidateBlock]
    by_cases hi : i < k
    · rw [List.getElem?_append_left (by rw [candidateBlock_length]; omega)]
      exact ih hi
    · have hik : i = k := by omega
      subst hik
      rw [List.getElem?_append_right (by rw [candidateBlock_length])]
      simp [candidateBlock_length]

theorem candidateBlock_getElem?_odd (c : Nat → Bool → Grasp S) (k i : Nat) (h : i < k) :
    (candidateBlock c k)[2 * i + 1]? = some (c i true) := by
  induction k with
  | zero => omega
  | succ k ih =>
    simp only [candidateBlock]
    by_cases hi : i < k
    · rw [List.getElem?_append_left (by rw [candidateBlock_length]; omega)]
      exact ih hi
    · have hik : i = k := by omega
      subst hik
      rw [List.getElem?_append_right (by rw [candidateBlock_length]; omega)]
      simp [candidateBlock_length]

theorem candidateBlock_mem (c : Nat → Bool → Grasp S) (k : Nat) (x : Grasp S)
    (h : x ∈ candidateBlock c k) : ∃ j, j < k ∧ ∃ b, x = c j b := by
  induction k with
  | zero => simp [candidateBlock] at h
  | succ k ih =>
    simp only [candidateBlock, List.mem_append, List.mem_cons, List.mem_singleton,
      List.not_mem_nil, or_false] at h
    rcases h with h | h | h
    · obtain ⟨j, hj, b, hb⟩ := ih h
      exact ⟨j, by omega, b, hb⟩
    · exact ⟨k, by omega, false, h⟩
    · exact ⟨k, by omega, true, h⟩

theorem arrowBlock_length (p : Nat → Pose S) (k : Nat) : (arrowBlock p k).length = k := by
  induction k with
  | zero => rfl
  | succ k ih => simp [arrowBlock, ih]

theorem arrowBlock_succ_front (p : Nat → Pose S) (k : Nat) :
    arrowBlock p (k + 1)
      = [SinkCall.publishArrow (p 0)] ++ arrowBlock (fun j => p (j + 1)) k := by
  induction k with
  | zero => rfl
  | succ k ih =>
    have h1 : arrowBlock p (k + 1 + 1)
        = arrowBlock p (k + 1) ++ [SinkCall.publishArrow (p (k + 1))] := rfl
    rw [h1, ih]
    simp [arrowBlock]

/-- The variables after one iteration for axis X or Y. -/
theorem graspIteration_eq (M : MathLib S) (axis : grasp_axis_t) (rotation : grasp_rotation_t)
    (grasp_data : RobotGraspData S) (radius theta2 : S) (v : LoopVars S)
    (hax : axis ≠ grasp_axis_t.Z_AXIS) :
    graspIteration M axis rotation grasp_data radius theta2 v
      = some (nextVars M axis rotation grasp_data radius theta2 v) := by
  cases axis with
  | Z_AXIS => exact absurd rfl hax
  | X_AXIS =>
    cases rotation <;>
      simp [graspIteration, graspPoseOfAxis, candidate, localGraspPose, thetaIncrement,
        debugPose, setDirection, nextVars]
  | Y_AXIS =>
    cases rotation <;>
      simp [graspIteration, graspPoseOfAxis, candidate, localGraspPose, thetaIncrement,
        debugPose, setDirection, nextVars]

/-- A grasp built from the variables after an iteration is the grasp built from the
variables before it. -/
theorem candidate_nextVars (M : MathLib S) (axis : grasp_axis_t) (rotation : grasp_rotation_t)
    (grasp_data : RobotGraspData S) (radius theta2 : S) (v : LoopVars S) (theta1 : S)
    (grasp_id : Int) (b : Bool) :
    candidate M axis grasp_data radius theta2
        (nextVars M axis rotation grasp_data radius theta2 v) theta1 grasp_id b
      = candidate M axis grasp_data radius theta2 v theta1 grasp_id b := by
  cases b <;> simp [candidate, setDirection, nextVars]

theorem debugPose_nextVars (M : MathLib S) (axis : grasp_axis_t) (rotation : grasp_rotation_t)
    (grasp_data : RobotGraspData S) (radius theta2 : S) (v : LoopVars S) (theta1 : S) :
    debugPose M axis radius theta2 (nextVars M axis rotation grasp_data radius theta2 v) theta1
      = debugPose M axis radius theta2 v theta1 := rfl

/-- The Z axis iteration returns false. -/
theorem graspIteration_Z (M : MathLib S) (rotation : grasp_rotation_t)
    (grasp_data : RobotGraspData S) (radius theta2 : S) (v : LoopVars S) :
    graspIteration M grasp_axis_t.Z_AXIS rotation grasp_data radius theta2 v = none := rfl

/-- The loop for axis X or Y in closed form. -/
theorem graspLoop_spec (M : MathLib S) (axis : grasp_axis_t) (rotation : grasp_rotation_t)
    (grasp_data : RobotGraspData S) (radius theta2 : S)
    (hax : axis ≠ grasp_axis_t.Z_AXIS) (k : Nat) (v : LoopVars S) :
    (graspLoop (graspIteration M axis rotation grasp_data radius theta2) k v).1 = true ∧
    (graspLoop (graspIteration M axis rotation grasp_data radius theta2) k v).2.possible_grasps
      = v.possible_grasps ++ candidateBlock (fun j b =>
          candidate M axis grasp_data radius theta2 v
            (v.theta1 + (j : S) * thetaIncrement M rotation grasp_data)
            (counterAfter v.gen.grasp_id j) b) k ∧
    (graspLoop (graspIteration M axis rotation grasp_data radius theta2) k v).2.gen
      = { v.gen with
          grasp_id := counterAfter v.gen.grasp_id k
          sink_calls := v.gen.sink_calls ++ arrowBlock (fun j =>
            debugPose M axis radius theta2 v
              (v.theta1 + (j : S) * thetaIncrement M rotation grasp_data)) k } := by
  induction k generalizing v with
  | zero => simp [graspLoop, candidateBlock, arrowBlock, counterAfter]
  | succ k ih =>
    have hstep := graspIteration_eq M axis rotation grasp_data radius theta2 v hax
    have hloop : graspLoop (graspIteration M axis rotation grasp_data radius theta2) (k + 1) v
        = graspLoop (graspIteration M axis rotation grasp_data radius theta2) k
            (nextVars M axis rotation grasp_data radius theta2 v) := by
      simp only [graspLoop, hstep]
    obtain ⟨h1, h2, h3⟩ := ih (nextVars M axis rotation grasp_data radius theta2 v)
    have hshift : ∀ j : Nat, (nextVars M axis rotation grasp_data radius theta2 v).theta1
          + (j : S) * thetaIncrement M rotation grasp_data
        = v.theta1 + ((j + 1 : Nat) : S) * thetaIncrement M rotation grasp_data := by
      intro j
      show v.theta1 + thetaIncrement M rotation grasp_data
          + (j : S) * thetaIncrement M rotation grasp_data = _
      push_cast
      ring
    have hcount : ∀ j : Nat,
        counterAfter (nextVars M axis rotation grasp_data radius theta2 v).gen.grasp_id j
          = counterAfter v.gen.grasp_id (j + 1) := fun _ => rfl
    have hzero : v.theta1 + ((0 : Nat) : S) * thetaIncrement M rotation grasp_data
        = v.theta1 := by
      simp
    rw [hloop]
    refine ⟨h1, ?_, ?_⟩
    · rw [h2, candidateBlock_succ_front]
      simp only [candidate_nextVars, hshift, hcount, hzero]
      show (v.possible_grasps ++ _) ++ _ = _
      rw [List.append_assoc]
      rfl
    · rw [h3, arrowBlock_succ_front]
      simp only [debugPose_nextVars, hshift, hcount, hzero]
      show ({ v.gen with
          grasp_id := counterAfter v.gen.grasp_id (k + 1)
          sink_calls := (v.gen.sink_calls ++ _) ++ _ } : Generator S) = _
      rw [List.append_assoc]

theorem Generator.sameButSink_refl (g : Generator S) : g.sameButSink g :=
  ⟨rfl, rfl, rfl, rfl, rfl, rfl⟩

/-- The animation loop only writes to the calls of the sink. -/
theorem animateLoop_frame (M : MathLib S) (grasp : Grasp S) (grasp_data : RobotGraspData S)
    (e : Affine3 S) (fuel : Nat) (percent : S) (g : Generator S) :
    g.sameButSink (animateLoop M grasp grasp_data e fuel percent g) := by
  induction fuel generalizing percent g with
  | zero => exact g.sameButSink_refl
  | succ fuel ih =>
    simp only [animateLoop]
    split
    · split
      · exact g.sameButSink_refl
      · exact ih _ _
    · exact g.sameButSink_refl

/-- Once the counter of the animation loop has reached 1 the loop is over, whatever is
left to unroll. -/
theorem animateLoop_done (M : MathLib S) (grasp : Grasp S) (grasp_data : RobotGraspData S)
    (e : Affine3 S) (fuel : Nat) (percent : S) (g : Generator S) (h : ¬ percent < 1) :
    animateLoop M grasp grasp_data e fuel percent g = g := by
  cases fuel with
  | zero => rfl
  | succ fuel => simp [animateLoop, h]

/-- Unrolling the animation loop once more changes nothing when the counter is within
`fuel` steps of 1: the loop ends by its own condition. -/
theorem animateLoop_fuel (M : MathLib S) (grasp : Grasp S) (grasp_data : RobotGraspData S)
    (e : Affine3 S) (fuel : Nat) (percent : S) (g : Generator S)
    (h : 1 ≤ percent + (fuel : S) * 0.1) :
    animateLoop M grasp grasp_data e (fuel + 1) percent g
      = animateLoop M grasp grasp_data e fuel percent g := by
  induction fuel generalizing percent g with
  | zero =>
    have hp : ¬ percent < 1 := by
      simp only [Nat.cast_zero, zero_mul, add_zero] at h
      exact not_lt.mpr h
    rw [animateLoop_done _ _ _ _ _ _ _ hp, animateLoop_done _ _ _ _ _ _ _ hp]
  | succ fuel ih =>
    have hstep : 1 ≤ percent + 0.1 + (fuel : S) * 0.1 := by
      have : percent + ((fuel + 1 : Nat) : S) * 0.1 = percent + 0.1 + (fuel : S) * 0.1 := by
        push_cast; ring
      rw [← this]; exact h
    conv_lhs => unfold animateLoop
    conv_rhs => unfold animateLoop
    split
    · split
      · rfl
      · exact ih _ _ hstep
    · rfl

/-- The eleven unrollings of `animateGrasp` exhaust its loop: twelve give the same. -/
theorem animateLoop_eleven (M : MathLib S) (grasp : Grasp S) (grasp_data : RobotGraspData S)
    (e : Affine3 S) (g : Generator S) :
    animateLoop M grasp grasp_data e 12 0 g = animateLoop M grasp grasp_data e 11 0 g :=
  animateLoop_fuel M grasp grasp_data e 11 0 g (by norm_num)

/-- The method `animateGrasp` only writes to the calls of the sink. -/
theorem animateGrasp_frame (M : MathLib S) (grasp : Grasp S) (grasp_data : RobotGraspData S)
    (g : Generator S) : g.sameButSink (animateGrasp M grasp grasp_data g) := by
  have h := animateLoop_frame M grasp grasp_data (poseMsgToEigen grasp.grasp_pose.pose) 11 0
    { g with sink_calls := g.sink_calls ++ [SinkCall.publishText grasp.grasp_pose.pose
        ("Grasp Quality: " ++ toString (M.toInt (grasp.grasp_quality * 100)) ++ "%")] }
  exact h

/-- The loop of `visualizeGrasps` only writes to the calls of the sink. -/
theorem visualizeLoop_frame (M : MathLib S) (grasp_data : RobotGraspData S)
    (grasps : List (Grasp S)) (g : Generator S) :
    g.sameButSink (visualizeLoop M grasp_data grasps g) := by
  induction grasps generalizing g with
  | nil => exact g.sameButSink_refl
  | cons x rest ih =>
    simp only [visualizeLoop]
    split
    · exact g.sameButSink_refl
    · obtain ⟨a1, a2, a3, a4, a5, a6⟩ := animateGrasp_frame M x grasp_data g
      obtain ⟨b1, b2, b3, b4, b5, b6⟩ := ih (animateGrasp M x grasp_data g)
      exact ⟨b1.trans a1, b2.trans a2, b3.trans a3, b4.trans a4, b5.trans a5, b6.trans a6⟩

/-- The method `visualizeGrasps` only writes to the calls of the sink. -/
theorem visualizeGrasps_frame (M : MathLib S) (grasps : List (Grasp S)) (object_pose : Pose S)
    (grasp_data : RobotGraspData S) (g : Generator S) :
    g.sameButSink (visualizeGrasps M grasps object_pose grasp_data g) := by
  simp only [visualizeGrasps]
  split
  · exact g.sameButSink_refl
  · split
    · exact g.sameButSink_refl
    · exact visualizeLoop_frame M grasp_data grasps g

/-- A muted sink gets nothing from `visualizeGrasps`. -/
theorem visualizeGrasps_muted (M : MathLib S) (grasps : List (Grasp S)) (object_pose : Pose S)
    (grasp_data : RobotGraspData S) (g : Generator S) (h : g.muted = true) :
    visualizeGrasps M grasps object_pose grasp_data g = g := by
  simp [visualizeGrasps, h]

/-- The call `generateAxisGrasps` for axis X or Y in closed form. -/
theorem generateAxisGrasps_spec (M : MathLib S) (object_pose : Pose S) (axis : grasp_axis_t)
    (direction : grasp_direction_t) (rotation : grasp_rotation_t)
    (grasp_data : RobotGraspData S) (possible_grasps : List (Grasp S)) (g : Generator S)
    (hax : axis ≠ grasp_axis_t.Z_AXIS) :
    generateAxisGrasps M object_pose axis direction rotation grasp_data possible_grasps g
      = (true,
         possible_grasps ++ newGrasps M object_pose axis direction rotation grasp_data g,
         visualizeGrasps M
           (possible_grasps ++ newGrasps M object_pose axis direction rotation grasp_data g)
           object_pose grasp_data
           { g with
             object_global_transform_ := poseMsgToEigen object_pose
             grasp_id := counterAfter g.grasp_id (grasp_data.angle_resolution_ + 1).toNat
             sink_calls := g.sink_calls
               ++ newArrows M object_pose axis direction rotation grasp_data g }) := by
  obtain ⟨h1, h2, h3⟩ := graspLoop_spec M axis rotation grasp_data grasp_data.grasp_depth_
    (theta2Of M direction) hax (grasp_data.angle_resolution_ + 1).toNat
    (initialVars M object_pose grasp_data possible_grasps g)
  have h2b : (graspLoop (graspIteration M axis rotation grasp_data grasp_data.grasp_depth_
        (theta2Of M direction)) (grasp_data.angle_resolution_ + 1).toNat
        (initialVars M object_pose grasp_data possible_grasps g)).2.possible_grasps
      = possible_grasps ++ newGrasps M object_pose axis direction rotation grasp_data g := by
    rw [h2]; rfl
  have h3b : (graspLoop (graspIteration M axis rotation grasp_data grasp_data.grasp_depth_
        (theta2Of M direction)) (grasp_data.angle_resolution_ + 1).toNat
        (initialVars M object_pose grasp_data possible_grasps g)).2.gen
      = { g with
          object_global_transform_ := poseMsgToEigen object_pose
          grasp_id := counterAfter g.grasp_id (grasp_data.angle_resolution_ + 1).toNat
          sink_calls := g.sink_calls
            ++ newArrows M object_pose axis direction rotation grasp_data g } := by
    rw [h3]; rfl
  have hdef : generateAxisGrasps M object_pose axis direction rotation grasp_data
        possible_grasps g
      = (if (graspLoop (graspIteration M axis rotation grasp_data grasp_data.grasp_depth_
            (theta2Of M direction)) (grasp_data.angle_resolution_ + 1).toNat
            (initialVars M object_pose grasp_data possible_grasps g)).1 = false then
          (false,
           (graspLoop (graspIteration M axis rotation grasp_data grasp_data.grasp_depth_
            (theta2Of M direction)) (grasp_data.angle_resolution_ + 1).toNat
            (initialVars M object_pose grasp_data possible_grasps g)).2.possible_grasps,
           (graspLoop (graspIteration M axis rotation grasp_data grasp_data.grasp_depth_
            (theta2Of M direction)) (grasp_data.angle_resolution_ + 1).toNat
            (initialVars M object_pose grasp_data possible_grasps g)).2.gen)
        else
          (true,
           (graspLoop (graspIteration M axis rotation grasp_data grasp_data.grasp_depth_
            (theta2Of M direction)) (grasp_data.angle_resolution_ + 1).toNat
            (initialVars M object_pose grasp_data possible_grasps g)).2.possible_grasps,
           visualizeGrasps M
            (graspLoop (graspIteration M axis rotation grasp_data grasp_data.grasp_depth_
              (theta2Of M direction)) (grasp_data.angle_resolution_ + 1).toNat
              (initialVars M object_pose grasp_data possible_grasps g)).2.possible_grasps
            object_pose grasp_data
            (graspLoop (graspIteration M axis rotation grasp_data grasp_data.grasp_depth_
              (theta2Of M direction)) (grasp_data.angle_resolution_ + 1).toNat
              (initialVars M object_pose grasp_data possible_grasps g)).2.gen)) := rfl
  rw [hdef, h1, h2b, h3b]
  simp

/-- The call `generateAxisGrasps` for axis Z in closed form. -/
theorem generateAxisGrasps_Z (M : MathLib S) (object_pose : Pose S)
    (direction : grasp_direction_t) (rotation : grasp_rotation_t)
    (grasp_data : RobotGraspData S) (possible_grasps : List (Grasp S)) (g : Generator S) :
    generateAxisGrasps M object_pose grasp_axis_t.Z_AXIS direction rotation grasp_data
        possible_grasps g
      = if 0 ≤ grasp_data.angle_resolution_ then
          (false, possible_grasps,
            { g with object_global_transform_ := poseMsgToEigen object_pose })
        else
          (true, possible_grasps,
            visualizeGrasps M possible_grasps object_pose grasp_data
              { g with object_global_transform_ := poseMsgToEigen object_pose }) := by
  by_cases h : 0 ≤ grasp_data.angle_resolution_
  · obtain ⟨k, hk⟩ : ∃ k, (grasp_data.angle_resolution_ + 1).toNat = k + 1 :=
      ⟨grasp_data.angle_resolution_.toNat, by omega⟩
    simp [generateAxisGrasps, hk, graspLoop, graspIteration_Z, h]
  · have hk : (grasp_data.angle_resolution_ + 1).toNat = 0 := by omega
    simp [generateAxisGrasps, hk, graspLoop, h]

theorem newGrasps_length (M : MathLib S) (object_pose : Pose S) (axis : grasp_axis_t)
    (direction : grasp_direction_t) (rotation : grasp_rotation_t)
    (grasp_data : RobotGraspData S) (g : Generator S) :
    (newGrasps M object_pose axis direction rotation grasp_data g).length
      = 2 * (grasp_data.angle_resolution_ + 1).toNat := by
  simp [newGrasps, candidateBlock_length]

/-- The appended block reads the generator only through the counter and the clock. -/
theorem newGrasps_congr (M : MathLib S) (object_pose : Pose S) (axis : grasp_axis_t)
    (direction : grasp_direction_t) (rotation : grasp_rotation_t)
    (grasp_data : RobotGraspData S) (g h : Generator S)
    (hid : h.grasp_id = g.grasp_id) (ht : h.ros_time = g.ros_time) :
    newGrasps M object_pose axis direction rotation grasp_data h
      = newGrasps M object_pose axis direction rotation grasp_data g := by
  unfold newGrasps
  congr 1
  funext j b
  simp [newGrasp, candidate, initialVars, hid, ht]

/-- The output vector of `generateAxisGrasps` for axis X or Y. -/
theorem generateAxisGrasps_out (M : MathLib S) (object_pose : Pose S) (axis : grasp_axis_t)
    (direction : grasp_direction_t) (rotation : grasp_rotation_t)
    (grasp_data : RobotGraspData S) (possible_grasps : List (Grasp S)) (g : Generator S)
    (hax : axis ≠ grasp_axis_t.Z_AXIS) :
    (generateAxisGrasps M object_pose axis direction rotation grasp_data possible_grasps g).2.1
      = possible_grasps ++ newGrasps M object_pose axis direction rotation grasp_data g := by
  rw [generateAxisGrasps_spec M object_pose axis direction rotation grasp_data possible_grasps
    g hax]

/-- The counter and the clock after `generateAxisGrasps` for axis X or Y. -/
theorem generateAxisGrasps_gen (M : MathLib S) (object_pose : Pose S) (axis : grasp_axis_t)
    (direction : grasp_direction_t) (rotation : grasp_rotation_t)
    (grasp_data : RobotGraspData S) (possible_grasps : List (Grasp S)) (g : Generator S)
    (hax : axis ≠ grasp_axis_t.Z_AXIS) :
    (generateAxisGrasps M object_pose axis direction rotation grasp_data
        possible_grasps g).2.2.grasp_id
      = counterAfter g.grasp_id (grasp_data.angle_resolution_ + 1).toNat ∧
    (generateAxisGrasps M object_pose axis direction rotation grasp_data
        possible_grasps g).2.2.ros_time = g.ros_time := by
  rw [generateAxisGrasps_spec M object_pose axis direction rotation grasp_data possible_grasps
    g hax]
  obtain ⟨a1, _, _, _, _, a6⟩ := visualizeGrasps_frame M
    (possible_grasps ++ newGrasps M object_pose axis direction rotation grasp_data g)
    object_pose grasp_data
    { g with
      object_global_transform_ := poseMsgToEigen object_pose
      grasp_id := counterAfter g.grasp_id (grasp_data.angle_resolution_ + 1).toNat
      sink_calls := g.sink_calls
        ++ newArrows M object_pose axis direction rotation grasp_data g }
  exact ⟨a1, a6⟩

/-- The grasp at an even index of the appended block. -/
theorem generateAxisGrasps_getElem?_even (M : MathLib S) (object_pose : Pose S)
    (axis : grasp_axis_t) (direction : grasp_direction_t) (rotation : grasp_rotation_t)
    (grasp_data : RobotGraspData S) (possible_grasps : List (Grasp S)) (g : Generator S)
    (hax : axis ≠ grasp_axis_t.Z_AXIS) (i : Nat) (hi : (i : Int) ≤ grasp_data.angle_resolution_) :
    (generateAxisGrasps M object_pose axis direction rotation grasp_data
        possible_grasps g).2.1[possible_grasps.length + 2 * i]?
      = some (newGrasp M object_pose axis direction rotation grasp_data g i false) := by
  rw [generateAxisGrasps_out M object_pose axis direction rotation grasp_data possible_grasps
    g hax, List.getElem?_append_right (by omega)]
  have e : possible_grasps.length + 2 * i - possible_grasps.length = 2 * i := by omega
  rw [e]
  exact candidateBlock_getElem?_even _ _ i (by omega)

/-- The grasp at an odd index of the appended block. -/
theorem generateAxisGrasps_getElem?_odd (M : MathLib S) (object_pose : Pose S)
    (axis : grasp_axis_t) (direction : grasp_direction_t) (rotation : grasp_rotation_t)
    (grasp_data : RobotGraspData S) (possible_grasps : List (Grasp S)) (g : Generator S)
    (hax : axis ≠ grasp_axis_t.Z_AXIS) (i : Nat) (hi : (i : Int) ≤ grasp_data.angle_resolution_) :
    (generateAxisGrasps M object_pose axis direction rotation grasp_data
        possible_grasps g).2.1[possible_grasps.length + 2 * i + 1]?
      = some (newGrasp M object_pose axis direction rotation grasp_data g i true) := by
  rw [generateAxisGrasps_out M object_pose axis direction rotation grasp_data possible_grasps
    g hax, List.getElem?_append_right (by omega)]
  have e : possible_grasps.length + 2 * i + 1 - possible_grasps.length = 2 * i + 1 := by omega
  rw [e]
  exact candidateBlock_getElem?_odd _ _ i (by omega)

/-- The vector of `generateAllGrasps`, given the results of its first three calls. -/
theorem generateAllGrasps_out_of (M : MathLib S) (object_pose : Pose S)
    (grasp_data : RobotGraspData S) (possible_grasps : List (Grasp S)) (g : Generator S)
    (r1 r2 r3 : Bool × List (Grasp S) × Generator S)
    (h1 : r1 = generateAxisGrasps M object_pose grasp_axis_t.X_AXIS grasp_direction_t.DOWN
      grasp_rotation_t.HALF grasp_data possible_grasps g)
    (h2 : r2 = generateAxisGrasps M object_pose grasp_axis_t.X_AXIS grasp_direction_t.UP
      grasp_rotation_t.HALF grasp_data r1.2.1 r1.2.2)
    (h3 : r3 = generateAxisGrasps M object_pose grasp_axis_t.Y_AXIS grasp_direction_t.DOWN
      grasp_rotation_t.HALF grasp_data r2.2.1 r2.2.2) :
    (generateAllGrasps M object_pose grasp_data possible_grasps g).2.1
      = possible_grasps
        ++ (newGrasps M object_pose grasp_axis_t.X_AXIS grasp_direction_t.DOWN
              grasp_rotation_t.HALF grasp_data g
        ++ (newGrasps M object_pose grasp_axis_t.X_AXIS grasp_direction_t.UP
              grasp_rotation_t.HALF grasp_data r1.2.2
        ++ (newGrasps M object_pose grasp_axis_t.Y_AXIS grasp_direction_t.DOWN
              grasp_rotation_t.HALF grasp_data r2.2.2
        ++ newGrasps M object_pose grasp_axis_t.Y_AXIS grasp_direction_t.UP
              grasp_rotation_t.HALF grasp_data r3.2.2))) := by
  have hX : grasp_axis_t.X_AXIS ≠ grasp_axis_t.Z_AXIS := by decide
  have hY : grasp_axis_t.Y_AXIS ≠ grasp_axis_t.Z_AXIS := by decide
  have hall : (generateAllGrasps M object_pose grasp_data possible_grasps g).2.1
      = (generateAxisGrasps M object_pose grasp_axis_t.Y_AXIS grasp_direction_t.UP
          grasp_rotation_t.HALF grasp_data r3.2.1 r3.2.2).2.1 := by
    rw [h3, h2, h1]
    rfl
  have e1 := generateAxisGrasps_out M object_pose grasp_axis_t.X_AXIS grasp_direction_t.DOWN
    grasp_rotation_t.HALF grasp_data possible_grasps g hX
  rw [← h1] at e1
  have e2 := generateAxisGrasps_out M object_pose grasp_axis_t.X_AXIS grasp_direction_t.UP
    grasp_rotation_t.HALF grasp_data r1.2.1 r1.2.2 hX
  rw [← h2] at e2
  have e3 := generateAxisGrasps_out M object_pose grasp_axis_t.Y_AXIS grasp_direction_t.DOWN
    grasp_rotation_t.HALF grasp_data r2.2.1 r2.2.2 hY
  rw [← h3] at e3
  rw [hall, generateAxisGrasps_out _ _ _ _ _ _ _ _ hY, e3, e2, e1]
  simp only [List.append_assoc]

/-- The vector of `generateAllGrasps`: the prior vector and four appended blocks. -/
theorem generateAllGrasps_out (M : MathLib S) (object_pose : Pose S)
    (grasp_data : RobotGraspData S) (possible_grasps : List (Grasp S)) (g : Generator S) :
    ∃ g1 g2 g3 : Generator S,
      (generateAllGrasps M object_pose grasp_data possible_grasps g).2.1
        = possible_grasps
          ++ (newGrasps M object_pose grasp_axis_t.X_AXIS grasp_direction_t.DOWN
                grasp_rotation_t.HALF grasp_data g
          ++ (newGrasps M object_pose grasp_axis_t.X_AXIS grasp_direction_t.UP
                grasp_rotation_t.HALF grasp_data g1
          ++ (newGrasps M object_pose grasp_axis_t.Y_AXIS grasp_direction_t.DOWN
                grasp_rotation_t.HALF grasp_data g2
          ++ newGrasps M object_pose grasp_axis_t.Y_AXIS grasp_direction_t.UP
                grasp_rotation_t.HALF grasp_data g3))) :=
  ⟨_, _, _, generateAllGrasps_out_of M object_pose grasp_data possible_grasps g _ _ _
    rfl rfl rfl⟩

/-- The function `stdMax` is the maximum. -/
theorem stdMax_eq_max (a b : S) : stdMax a b = max a b := by
  unfold stdMax
  split
  · rename_i h; exact (max_eq_right (le_of_lt h)).symm
  · rename_i h; exact (max_eq_left (not_lt.mp h)).symm

/-- The quality of a grasp of the appended block, over the real numbers. -/
theorem newGrasp_quality (object_pose : Pose ℝ) (axis : grasp_axis_t)
    (direction : grasp_direction_t) (rotation : grasp_rotation_t)
    (grasp_data : RobotGraspData ℝ) (g : Generator ℝ) (j : Nat) (b : Bool) :
    (newGrasp exactMath object_pose axis direction rotation grasp_data g j b).grasp_quality
      = max (Real.sin ((j : ℝ) * thetaIncrement exactMath rotation grasp_data)) 0.1 := by
  simp [newGrasp, candidate, stdMax_eq_max, exactMath]

/-- Every quality of an appended block lies between 0.1 and 1. -/
theorem newGrasps_quality_range (object_pose : Pose ℝ) (axis : grasp_axis_t)
    (direction : grasp_direction_t) (rotation : grasp_rotation_t)
    (grasp_data : RobotGraspData ℝ) (g : Generator ℝ) (x : Grasp ℝ)
    (hx : x ∈ newGrasps exactMath object_pose axis direction rotation grasp_data g) :
    0.1 ≤ x.grasp_quality ∧ x.grasp_quality ≤ 1 := by
  obtain ⟨j, _, b, hb⟩ := candidateBlock_mem _ _ x hx
  rw [hb, newGrasp_quality]
  refine ⟨le_max_right _ _, max_le (Real.sin_le_one _) (by norm_num)⟩

/-- The quality of a grasp of a HALF block: the sine of `j * pi / N`, floored at 0.1. -/
theorem newGrasp_quality_half (object_pose : Pose ℝ) (axis : grasp_axis_t)
    (direction : grasp_direction_t) (grasp_data : RobotGraspData ℝ) (g : Generator ℝ)
    (j : Nat) (b : Bool) :
    (newGrasp exactMath object_pose axis direction grasp_rotation_t.HALF grasp_data g j
        b).grasp_quality
      = max (Real.sin ((j : ℝ) * Real.pi / (grasp_data.angle_resolution_ : ℝ))) 0.1 := by
  rw [newGrasp_quality]
  simp only [thetaIncrement, exactMath, mul_div_assoc]

/-- The floored sine does not decrease from `x` to `y` while `y` is at most `pi / 2`. -/
theorem flooredSine_mono {x y : ℝ} (hx : 0 ≤ x) (hxy : x ≤ y) (hy : y ≤ Real.pi / 2) :
    max (Real.sin x) 0.1 ≤ max (Real.sin y) 0.1 :=
  max_le_max (Real.sin_le_sin_of_le_of_le_pi_div_two
    (by linarith [Real.pi_pos]) hy hxy) (le_refl _)

/-- The floored sine does not increase from `x` to `y` once `x` is at least `pi / 2`, up
to `pi`. -/
theorem flooredSine_anti {x y : ℝ} (hx : Real.pi / 2 ≤ x) (hxy : x ≤ y) (hy : y ≤ Real.pi) :
    max (Real.sin y) 0.1 ≤ max (Real.sin x) 0.1 := by
  have h : Real.sin (Real.pi - y) ≤ Real.sin (Real.pi - x) :=
    Real.sin_le_sin_of_le_of_le_pi_div_two (by linarith [Real.pi_pos]) (by linarith)
      (by linarith)
  rw [Real.sin_pi_sub, Real.sin_pi_sub] at h
  exact max_le_max h (le_refl _)

theorem candidateBlock_map (f : Grasp S → Grasp S) (c : Nat → Bool → Grasp S) (k : Nat) :
    (candidateBlock c k).map f = candidateBlock (fun j b => f (c j b)) k := by
  induction k with
  | zero => rfl
  | succ k ih => simp [candidateBlock, ih]

/-- Apart from name and time stamps, a grasp of the appended block does not depend on the
generator. -/
theorem newGrasp_content (M : MathLib S) (object_pose : Pose S) (axis : grasp_axis_t)
    (direction : grasp_direction_t) (rotation : grasp_rotation_t)
    (grasp_data : RobotGraspData S) (g h : Generator S) (j : Nat) (b : Bool) :
    (newGrasp M object_pose axis direction rotation grasp_data g j b).content
      = (newGrasp M object_pose axis direction rotation grasp_data h j b).content := by
  cases b <;> simp [Grasp.content, newGrasp, candidate, initialVars, setDirection]

/-- The calls a muted sink has received after `generateAxisGrasps` for axis X or Y: one
`publishArrow` for each sample. -/
theorem generateAxisGrasps_sink_calls_muted (M : MathLib S) (object_pose : Pose S)
    (axis : grasp_axis_t) (direction : grasp_direction_t) (rotation : grasp_rotation_t)
    (grasp_data : RobotGraspData S) (possible_grasps : List (Grasp S)) (g : Generator S)
    (hax : axis ≠ grasp_axis_t.Z_AXIS) (hm : g.muted = true) :
    (generateAxisGrasps M object_pose axis direction rotation grasp_data
        possible_grasps g).2.2.sink_calls
      = g.sink_calls ++ newArrows M object_pose axis direction rotation grasp_data g := by
  rw [generateAxisGrasps_spec M object_pose axis direction rotation grasp_data possible_grasps
    g hax, visualizeGrasps_muted _ _ _ _ _ (by exact hm)]

theorem cos_neg_half_pi : Real.cos (-0.5 * Real.pi) = 0 := by
  have h : (-0.5 : ℝ) * Real.pi = -(Real.pi / 2) := by norm_num; ring
  rw [h, Real.cos_neg, Real.cos_pi_div_two]

theorem sin_neg_half_pi : Real.sin (-0.5 * Real.pi) = -1 := by
  have h : (-0.5 : ℝ) * Real.pi = -(Real.pi / 2) := by norm_num; ring
  rw [h, Real.sin_neg, Real.sin_pi_div_two]

/-- The local grasp pose of the X axis case, over the real numbers, with the products
worked out. -/
theorem graspPoseOfAxis_X (radius theta1 theta2 : ℝ) :
    graspPoseOfAxis exactMath grasp_axis_t.X_AXIS radius theta1 theta2
      = some
        { linear :=
            { m00 := 0, m01 := Real.cos theta2, m02 := -Real.sin theta2
              m10 := -Real.cos theta1
              m11 := -(Real.sin theta1 * Real.sin theta2)
              m12 := -(Real.sin theta1 * Real.cos theta2)
              m20 := -Real.sin theta1
              m21 := Real.cos theta1 * Real.sin theta2
              m22 := Real.cos theta1 * Real.cos theta2 }
          translation :=
            { x := 0, y := radius * Real.cos theta1, z := radius * Real.sin theta1 } } := by
  simp only [graspPoseOfAxis, Mat3.mul, angleAxisUnitX, angleAxisUnitZ, exactMath,
    cos_neg_half_pi, sin_neg_half_pi]
  congr 2
  simp only [Mat3.mk.injEq]
  refine ⟨?_, ?_, ?_, ?_, ?_, ?_, ?_, ?_, ?_⟩ <;> ring

/-- The local grasp pose of the Y axis case, over the real numbers, with the products
worked out. -/
theorem graspPoseOfAxis_Y (radius theta1 theta2 : ℝ) :
    graspPoseOfAxis exactMath grasp_axis_t.Y_AXIS radius theta1 theta2
      = some
        { linear :=
            { m00 := -Real.cos theta1
              m01 := Real.sin theta1 * Real.sin theta2
              m02 := Real.sin theta1 * Real.cos theta2
              m10 := 0, m11 := Real.cos theta2, m12 := -Real.sin theta2
              m20 := -Real.sin theta1
              m21 := -(Real.cos theta1 * Real.sin theta2)
              m22 := -(Real.cos theta1 * Real.cos theta2) }
          translation :=
            { x := radius * Real.cos theta1, y := 0, z := radius * Real.sin theta1 } } := by
  simp only [graspPoseOfAxis, Mat3.mul, angleAxisUnitY, angleAxisUnitX, exactMath,
    Real.sin_pi_sub, Real.cos_pi_sub]
  congr 2
  simp only [Mat3.mk.injEq]
  refine ⟨?_, ?_, ?_, ?_, ?_, ?_, ?_, ?_, ?_⟩ <;> ring

/-- The linear part of the X axis pose is a proper rotation when `theta2` is 0 or `pi`. -/
theorem rotation_X_proper (theta1 s2 c2 : ℝ) (hs : s2 = 0) (hc : c2 = 1 ∨ c2 = -1) :
    Mat3.IsProperRotation
      ({ m00 := 0, m01 := c2, m02 := -s2
         m10 := -Real.cos theta1
         m11 := -(Real.sin theta1 * s2)
         m12 := -(Real.sin theta1 * c2)
         m20 := -Real.sin theta1
         m21 := Real.cos theta1 * s2
         m22 := Real.cos theta1 * c2 } : Mat3 ℝ) := by
  have h1 : Real.sin theta1 * Real.sin theta1 + Real.cos theta1 * Real.cos theta1 = 1 := by
    have := Real.sin_sq_add_cos_sq theta1
    nlinarith [this]
  subst hs
  rcases hc with h | h <;> subst h
  · refine ⟨?_, ?_, ?_⟩
    · simp only [Mat3.mul, Mat3.transpose, Mat3.one, Mat3.mk.injEq]
      refine ⟨?_, ?_, ?_, ?_, ?_, ?_, ?_, ?_, ?_⟩ <;> linarith [h1]
    · simp only [Mat3.mul, Mat3.transpose, Mat3.one, Mat3.mk.injEq]
      refine ⟨?_, ?_, ?_, ?_, ?_, ?_, ?_, ?_, ?_⟩ <;> linarith [h1]
    · simp only [Mat3.det]
      linarith [h1]
  · refine ⟨?_, ?_, ?_⟩
    · simp only [Mat3.mul, Mat3.transpose, Mat3.one, Mat3.mk.injEq]
      refine ⟨?_, ?_, ?_, ?_, ?_, ?_, ?_, ?_, ?_⟩ <;> linarith [h1]
    · simp only [Mat3.mul, Mat3.transpose, Mat3.one, Mat3.mk.injEq]
      refine ⟨?_, ?_, ?_, ?_, ?_, ?_, ?_, ?_, ?_⟩ <;> linarith [h1]
    · simp only [Mat3.det]
      linarith [h1]

/-- The linear part of the Y axis pose is a proper rotation when `theta2` is 0 or `pi`. -/
theorem rotation_Y_proper (theta1 s2 c2 : ℝ) (hs : s2 = 0) (hc : c2 = 1 ∨ c2 = -1) :
    Mat3.IsProperRotation
      ({ m00 := -Real.cos theta1
         m01 := Real.sin theta1 * s2
         m02 := Real.sin theta1 * c2
         m10 := 0, m11 := c2, m12 := -s2
         m20 := -Real.sin theta1
         m21 := -(Real.cos theta1 * s2)
         m22 := -(Real.cos theta1 * c2) } : Mat3 ℝ) := by
  have h1 : Real.sin theta1 * Real.sin theta1 + Real.cos theta1 * Real.cos theta1 = 1 := by
    have := Real.sin_sq_add_cos_sq theta1
    nlinarith [this]
  subst hs
  rcases hc with h | h <;> subst h
  · refine ⟨?_, ?_, ?_⟩
    · simp only [Mat3.mul, Mat3.transpose, Mat3.one, Mat3.mk.injEq]
      refine ⟨?_, ?_, ?_, ?_, ?_, ?_, ?_, ?_, ?_⟩ <;> linarith [h1]
    · simp only [Mat3.mul, Mat3.transpose, Mat3.one, Mat3.mk.injEq]
      refine ⟨?_, ?_, ?_, ?_, ?_, ?_, ?_, ?_, ?_⟩ <;> linarith [h1]
    · simp only [Mat3.det]
      linarith [h1]
  · refine ⟨?_, ?_, ?_⟩
    · simp only [Mat3.mul, Mat3.transpose, Mat3.one, Mat3.mk.injEq]
      refine ⟨?_, ?_, ?_, ?_, ?_, ?_, ?_, ?_, ?_⟩ <;> linarith [h1]
    · simp only [Mat3.mul, Mat3.transpose, Mat3.one, Mat3.mk.injEq]
      refine ⟨?_, ?_, ?_, ?_, ?_, ?_, ?_, ?_, ?_⟩ <;> linarith [h1]
    · simp only [Mat3.det]
      linarith [h1]

/-- The angle `theta2` of a direction has sine 0 and cosine 1 or -1. -/
theorem theta2Of_sin_cos (direction : grasp_direction_t) :
    Real.sin (theta2Of exactMath direction) = 0 ∧
      (Real.cos (theta2Of exactMath direction) = 1 ∨
        Real.cos (theta2Of exactMath direction) = -1) := by
  cases direction
  · exact ⟨by simp [theta2Of, exactMath], Or.inl (by simp [theta2Of, exactMath])⟩
  · exact ⟨by simp [theta2Of, exactMath], Or.inr (by simp [theta2Of, exactMath])⟩

/-- Rotating by a unit quaternion and translating to `o` keeps the distance to `o`. -/
theorem distSq_rotate_translate (q : Quat ℝ) (hq : q.normSq = 1) (o v : Vec3 ℝ) :
    Vec3.distSq ((q.toRotationMatrix.mulVec v).add o) o
      = v.x * v.x + v.y * v.y + v.z * v.z := by
  simp only [Quat.normSq] at hq
  simp only [Vec3.distSq, Vec3.add, Mat3.mulVec, Quat.toRotationMatrix]
  linear_combination
    (4 * ((q.x * q.x + q.y * q.y + q.z * q.z) * (v.x * v.x + v.y * v.y + v.z * v.z)
      - (q.x * v.x + q.y * v.y + q.z * v.z) * (q.x * v.x + q.y * v.y + q.z * v.z))) * hq

/-- The position of a grasp of the appended block. -/
theorem newGrasp_position (M : MathLib S) (object_pose : Pose S) (axis : grasp_axis_t)
    (direction : grasp_direction_t) (rotation : grasp_rotation_t)
    (grasp_data : RobotGraspData S) (g : Generator S) (j : Nat) (b : Bool) :
    (newGrasp M object_pose axis direction rotation grasp_data g j b).grasp_pose.pose.position
      = ((poseMsgToEigen object_pose).linear.mulVec
          (((localGraspPose M axis grasp_data.grasp_depth_
              (0 + (j : S) * thetaIncrement M rotation grasp_data)
              (theta2Of M direction)).linear.mulVec
            grasp_data.grasp_pose_to_eef_pose_.position).add
           (localGraspPose M axis grasp_data.grasp_depth_
              (0 + (j : S) * thetaIncrement M rotation grasp_data)
              (theta2Of M direction)).translation)).add object_pose.position := by
  cases b <;> rfl

/-- A mounting correction without translation leaves the local translation. -/
theorem mulVec_zero (a : Mat3 ℝ) (t : Vec3 ℝ) :
    (a.mulVec { x := 0, y := 0, z := 0 }).add t = t := by
  simp [Mat3.mulVec, Vec3.add]

/-- The local translation has squared length `radius * radius`. -/
theorem localGraspPose_normSq (axis : grasp_axis_t)
    (hax : axis = grasp_axis_t.X_AXIS ∨ axis = grasp_axis_t.Y_AXIS)
    (radius theta1 theta2 : ℝ) :
    (localGraspPose exactMath axis radius theta1 theta2).translation.x
        * (localGraspPose exactMath axis radius theta1 theta2).translation.x
      + (localGraspPose exactMath axis radius theta1 theta2).translation.y
        * (localGraspPose exactMath axis radius theta1 theta2).translation.y
      + (localGraspPose exactMath axis radius theta1 theta2).translation.z
        * (localGraspPose exactMath axis radius theta1 theta2).translation.z
      = radius * radius := by
  have h1 := Real.sin_sq_add_cos_sq theta1
  rcases hax with h | h <;> subst h
  · simp only [localGraspPose, graspPoseOfAxis_X]
    nlinarith [h1]
  · simp only [localGraspPose, graspPoseOfAxis_Y]
    nlinarith [h1]

/-- A value inside the 32-bit range is not changed by the wrap-around. -/
theorem wrapInt32_of_range (n : Int) (h1 : -2147483648 ≤ n) (h2 : n ≤ 2147483647) :
    wrapInt32 n = n := by
  unfold wrapInt32
  omega

/-- While it stays inside the 32-bit range the counter after `j` increments is `c + j`. -/
theorem counterAfter_of_range (c : Int) (j : Nat) (h1 : -2147483648 ≤ c)
    (h2 : c + (j : Int) ≤ 2147483647) : counterAfter c j = c + (j : Int) := by
  induction j generalizing c with
  | zero => simp [counterAfter]
  | succ j ih =>
    have hw : wrapInt32 (c + 1) = c + 1 := wrapInt32_of_range _ (by omega) (by push_cast at h2; omega)
    simp only [counterAfter, hw]
    rw [ih (c + 1) (by omega) (by push_cast at h2; omega)]
    push_cast
    ring

/-- The exponent of 0.6 as a binary floating point number is -1. -/
theorem log_six_tenths : Int.log 2 |(0.6 : ℝ)| = -1 := by
  have habs : |(0.6 : ℝ)| = 0.6 := abs_of_pos (by norm_num)
  rw [habs]
  have h1 : (-1 : Int) ≤ Int.log 2 (0.6 : ℝ) :=
    (Int.zpow_le_iff_le_log (by norm_num) (by norm_num)).mp (by norm_num)
  have h2 : Int.log 2 (0.6 : ℝ) < 0 :=
    (Int.lt_zpow_iff_log_lt (by norm_num) (by norm_num)).mp (by norm_num)
  omega

/-- The binary32 nearest to 0.6 is 10066330 / 2^24, which is 0.60000002384185791015625. -/
theorem roundToFloat32_six_tenths : roundToFloat32 0.6 = 10066330 / 16777216 := by
  have hfloor : ⌊(0.6 : ℝ) / (2 : ℝ) ^ (-24 : Int)⌋ = 10066329 := by
    rw [Int.floor_eq_iff]
    constructor <;> norm_num
  have hr : roundNearestEven ((0.6 : ℝ) / (2 : ℝ) ^ (-24 : Int)) = 10066330 := by
    unfold roundNearestEven
    rw [hfloor]
    have h1 : ¬ ((0.6 : ℝ) / (2 : ℝ) ^ (-24 : Int) - ((10066329 : Int) : ℝ) < 1 / 2) := by
      norm_num
    have h2 : (1 : ℝ) / 2 < (0.6 : ℝ) / (2 : ℝ) ^ (-24 : Int) - ((10066329 : Int) : ℝ) := by
      norm_num
    rw [if_neg h1, if_pos h2]
    norm_num
  unfold roundToFloat32
  rw [if_neg (by norm_num), log_six_tenths]
  have he : max (-1 : Int) (-126) - 23 = -24 := by decide
  rw [he, hr]
  norm_num

/-- At the top of the 32-bit range the counter wraps around: a HALF call for axis Y at
angle resolution 2 started with the counter at 2147483646 names its grasps up to
Grasp2147483647 and then Grasp-2147483648, and leaves the counter at -2147483647. -/
theorem generateAxisGrasps_ids_wrap :
    (generateAxisGrasps exactMath identityPose grasp_axis_t.Y_AXIS grasp_direction_t.DOWN
        grasp_rotation_t.HALF (scenarioData 2) []
        { freshGenerator with grasp_id := 2147483646 }).2.1.map Grasp.id
      = ["Grasp2147483646", "Grasp2147483646", "Grasp2147483647", "Grasp2147483647",
         "Grasp-2147483648", "Grasp-2147483648"] ∧
    (generateAxisGrasps exactMath identityPose grasp_axis_t.Y_AXIS grasp_direction_t.DOWN
        grasp_rotation_t.HALF (scenarioData 2) []
        { freshGenerator with grasp_id := 2147483646 }).2.2.grasp_id = -2147483647 := by
  constructor
  · rw [generateAxisGrasps_out _ _ _ _ _ _ _ _ (by decide)]
    have hk : ((scenarioData 2).angle_resolution_ + 1).toNat = 3 := by decide
    simp only [newGrasps, hk, candidateBlock, newGrasp, candidate, List.nil_append,
      List.cons_append, List.map_cons, List.map_nil]
    decide
  · rw [(generateAxisGrasps_gen _ _ _ _ _ _ _ _ (by decide)).1]
    decide

end Lemmas

/-! ## The claims -/

section Claims

variable {S : Type} [LinearOrderedField S]

/-- C1: for axis X or Y, rotation HALF and angle resolution `N > 0`, `generateAxisGrasps`
returns true and the output vector afterwards is the prior vector followed by a block of
exactly `2 * (N + 1)` new grasps, whatever the object pose, the direction, the rest of the
configuration, the prior vector and the generator. -/
theorem C1_half_rotation_appends_two_per_sample (M : MathLib S) (object_pose : Pose S)
    (axis : grasp_axis_t) (direction : grasp_direction_t) (grasp_data : RobotGraspData S)
    (possible_grasps : List (Grasp S)) (g : Generator S)
    (hax : axis = grasp_axis_t.X_AXIS ∨ axis = grasp_axis_t.Y_AXIS)
    (hN : 0 < grasp_data.angle_resolution_) :
    (generateAxisGrasps M object_pose axis direction grasp_rotation_t.HALF grasp_data
        possible_grasps g).1 = true ∧
    ∃ block : List (Grasp S),
      (generateAxisGrasps M object_pose axis direction grasp_rotation_t.HALF grasp_data
        possible_grasps g).2.1 = possible_grasps ++ block ∧
      (block.length : Int) = 2 * (grasp_data.angle_resolution_ + 1) := by
  have hz : axis ≠ grasp_axis_t.Z_AXIS := by
    rcases hax with h | h <;> rw [h] <;> decide
  rw [generateAxisGrasps_spec M object_pose axis direction grasp_rotation_t.HALF grasp_data
    possible_grasps g hz]
  refine ⟨rfl, _, rfl, ?_⟩
  rw [newGrasps_length]
  push_cast
  rw [Int.toNat_of_nonneg (by omega)]

/-- C1 at the scenario of the specification: angle resolution 2, axis Y, direction DOWN on
an empty vector gives 6 grasps. -/
theorem C1_half_rotation_appends_two_per_sample_witness :
    0 < (scenarioData 2).angle_resolution_ ∧
    (generateAxisGrasps exactMath identityPose grasp_axis_t.Y_AXIS grasp_direction_t.DOWN
        grasp_rotation_t.HALF (scenarioData 2) [] freshGenerator).1 = true ∧
    (generateAxisGrasps exactMath identityPose grasp_axis_t.Y_AXIS grasp_direction_t.DOWN
        grasp_rotation_t.HALF (scenarioData 2) [] freshGenerator).2.1.length = 6 := by
  have hN : 0 < (scenarioData 2).angle_resolution_ := by decide
  obtain ⟨h1, block, h2, h3⟩ := C1_half_rotation_appends_two_per_sample exactMath identityPose
    grasp_axis_t.Y_AXIS grasp_direction_t.DOWN (scenarioData 2) [] freshGenerator
    (Or.inr rfl) hN
  refine ⟨hN, h1, ?_⟩
  rw [h2]
  have h4 : (scenarioData 2).angle_resolution_ = 2 := rfl
  rw [h4] at h3
  simp only [List.nil_append]
  omega

/-- C2: for angle resolution `N > 0`, `generateAllGrasps` on an empty vector returns true
and its vector is the concatenation of the vectors of the four HALF calls (X, DOWN),
(X, UP), (Y, DOWN), (Y, UP), each run on an empty vector from the generator the call before
left; the counter ends where the fourth call leaves it, and there are `8 * (N + 1)`
grasps. -/
theorem C2_all_grasps_is_four_sweeps (M : MathLib S) (object_pose : Pose S)
    (grasp_data : RobotGraspData S) (g : Generator S)
    (hN : 0 < grasp_data.angle_resolution_) :
    let s1 := halfSweep M object_pose grasp_data grasp_axis_t.X_AXIS grasp_direction_t.DOWN g
    let s2 := halfSweep M object_pose grasp_data grasp_axis_t.X_AXIS grasp_direction_t.UP s1.2.2
    let s3 := halfSweep M object_pose grasp_data grasp_axis_t.Y_AXIS grasp_direction_t.DOWN s2.2.2
    let s4 := halfSweep M object_pose grasp_data grasp_axis_t.Y_AXIS grasp_direction_t.UP s3.2.2
    (generateAllGrasps M object_pose grasp_data [] g).1 = true ∧
    (generateAllGrasps M object_pose grasp_data [] g).2.1
      = s1.2.1 ++ s2.2.1 ++ s3.2.1 ++ s4.2.1 ∧
    (generateAllGrasps M object_pose grasp_data [] g).2.2.grasp_id = s4.2.2.grasp_id ∧
    (((generateAllGrasps M object_pose grasp_data [] g).2.1.length : Nat) : Int)
      = 8 * (grasp_data.angle_resolution_ + 1) := by
  intro s1 s2 s3 s4
  have hX : grasp_axis_t.X_AXIS ≠ grasp_axis_t.Z_AXIS := by decide
  have hY : grasp_axis_t.Y_AXIS ≠ grasp_axis_t.Z_AXIS := by decide
  -- the calls as `generateAllGrasps` makes them
  let a1 := generateAxisGrasps M object_pose grasp_axis_t.X_AXIS grasp_direction_t.DOWN
    grasp_rotation_t.HALF grasp_data [] g
  let a2 := generateAxisGrasps M object_pose grasp_axis_t.X_AXIS grasp_direction_t.UP
    grasp_rotation_t.HALF grasp_data a1.2.1 a1.2.2
  let a3 := generateAxisGrasps M object_pose grasp_axis_t.Y_AXIS grasp_direction_t.DOWN
    grasp_rotation_t.HALF grasp_data a2.2.1 a2.2.2
  let a4 := generateAxisGrasps M object_pose grasp_axis_t.Y_AXIS grasp_direction_t.UP
    grasp_rotation_t.HALF grasp_data a3.2.1 a3.2.2
  have hall : generateAllGrasps M object_pose grasp_data [] g = (true, a4.2.1, a4.2.2) := rfl
  have h12 : s1 = a1 := rfl
  -- counters and clocks of the two chains agree
  have g1 := generateAxisGrasps_gen M object_pose grasp_axis_t.X_AXIS grasp_direction_t.DOWN
    grasp_rotation_t.HALF grasp_data [] g hX
  have ga2 := generateAxisGrasps_gen M object_pose grasp_axis_t.X_AXIS grasp_direction_t.UP
    grasp_rotation_t.HALF grasp_data a1.2.1 a1.2.2 hX
  have gs2 := generateAxisGrasps_gen M object_pose grasp_axis_t.X_AXIS grasp_direction_t.UP
    grasp_rotation_t.HALF grasp_data [] s1.2.2 hX
  have ga3 := generateAxisGrasps_gen M object_pose grasp_axis_t.Y_AXIS grasp_direction_t.DOWN
    grasp_rotation_t.HALF grasp_data a2.2.1 a2.2.2 hY
  have gs3 := generateAxisGrasps_gen M object_pose grasp_axis_t.Y_AXIS grasp_direction_t.DOWN
    grasp_rotation_t.HALF grasp_data [] s2.2.2 hY
  have ga4 := generateAxisGrasps_gen M object_pose grasp_axis_t.Y_AXIS grasp_direction_t.UP
    grasp_rotation_t.HALF grasp_data a3.2.1 a3.2.2 hY
  have gs4 := generateAxisGrasps_gen M object_pose grasp_axis_t.Y_AXIS grasp_direction_t.UP
    grasp_rotation_t.HALF grasp_data [] s3.2.2 hY
  have i2 : a2.2.2.grasp_id = s2.2.2.grasp_id ∧ a2.2.2.ros_time = s2.2.2.ros_time :=
    ⟨ga2.1.trans gs2.1.symm, ga2.2.trans gs2.2.symm⟩
  have i3 : a3.2.2.grasp_id = s3.2.2.grasp_id ∧ a3.2.2.ros_time = s3.2.2.ros_time :=
    ⟨by rw [ga3.1, i2.1]; exact gs3.1.symm, by rw [ga3.2, i2.2]; exact gs3.2.symm⟩
  have i4 : a4.2.2.grasp_id = s4.2.2.grasp_id :=
    by rw [ga4.1, i3.1]; exact gs4.1.symm
  -- the vectors
  have o1 : s1.2.1 = newGrasps M object_pose grasp_axis_t.X_AXIS grasp_direction_t.DOWN
      grasp_rotation_t.HALF grasp_data g := by
    have := generateAxisGrasps_out M object_pose grasp_axis_t.X_AXIS grasp_direction_t.DOWN
      grasp_rotation_t.HALF grasp_data [] g hX
    simpa using this
  have os2 : s2.2.1 = newGrasps M object_pose grasp_axis_t.X_AXIS grasp_direction_t.UP
      grasp_rotation_t.HALF grasp_data s1.2.2 := by
    have := generateAxisGrasps_out M object_pose grasp_axis_t.X_AXIS grasp_direction_t.UP
      grasp_rotation_t.HALF grasp_data [] s1.2.2 hX
    simpa using this
  have os3 : s3.2.1 = newGrasps M object_pose grasp_axis_t.Y_AXIS grasp_direction_t.DOWN
      grasp_rotation_t.HALF grasp_data s2.2.2 := by
    have := generateAxisGrasps_out M object_pose grasp_axis_t.Y_AXIS grasp_direction_t.DOWN
      grasp_rotation_t.HALF grasp_data [] s2.2.2 hY
    simpa using this
  have os4 : s4.2.1 = newGrasps M object_pose grasp_axis_t.Y_AXIS grasp_direction_t.UP
      grasp_rotation_t.HALF grasp_data s3.2.2 := by
    have := generateAxisGrasps_out M object_pose grasp_axis_t.Y_AXIS grasp_direction_t.UP
      grasp_rotation_t.HALF grasp_data [] s3.2.2 hY
    simpa using this
  have oa2 : a2.2.1 = a1.2.1 ++ s2.2.1 := by
    rw [os2]
    exact generateAxisGrasps_out M object_pose grasp_axis_t.X_AXIS grasp_direction_t.UP
      grasp_rotation_t.HALF grasp_data a1.2.1 a1.2.2 hX
  have oa3 : a3.2.1 = a2.2.1 ++ s3.2.1 := by
    rw [os3, ← newGrasps_congr M object_pose grasp_axis_t.Y_AXIS grasp_direction_t.DOWN
      grasp_rotation_t.HALF grasp_data s2.2.2 a2.2.2 i2.1 i2.2]
    exact generateAxisGrasps_out M object_pose grasp_axis_t.Y_AXIS grasp_direction_t.DOWN
      grasp_rotation_t.HALF grasp_data a2.2.1 a2.2.2 hY
  have oa4 : a4.2.1 = a3.2.1 ++ s4.2.1 := by
    rw [os4, ← newGrasps_congr M object_pose grasp_axis_t.Y_AXIS grasp_direction_t.UP
      grasp_rotation_t.HALF grasp_data s3.2.2 a3.2.2 i3.1 i3.2]
    exact generateAxisGrasps_out M object_pose grasp_axis_t.Y_AXIS grasp_direction_t.UP
      grasp_rotation_t.HALF grasp_data a3.2.1 a3.2.2 hY
  have hout : (generateAllGrasps M object_pose grasp_data [] g).2.1
      = s1.2.1 ++ s2.2.1 ++ s3.2.1 ++ s4.2.1 := by
    rw [hall]
    show a4.2.1 = _
    rw [oa4, oa3, oa2, h12]
  refine ⟨rfl, hout, ?_, ?_⟩
  · rw [hall]; exact i4
  · rw [hout, o1, os2, os3, os4]
    simp only [List.length_append, newGrasps_length]
    push_cast
    rw [Int.toNat_of_nonneg (by omega)]
    ring

/-- C2 at angle resolution 4: `generateAllGrasps` returns true with 40 grasps. -/
theorem C2_all_grasps_is_four_sweeps_witness :
    0 < (scenarioData 4).angle_resolution_ ∧
    (generateAllGrasps exactMath identityPose (scenarioData 4) [] freshGenerator).1 = true ∧
    (generateAllGrasps exactMath identityPose (scenarioData 4) [] freshGenerator).2.1.length
      = 40 := by
  have hN : 0 < (scenarioData 4).angle_resolution_ := by decide
  obtain ⟨h1, _, _, h4⟩ := C2_all_grasps_is_four_sweeps exactMath identityPose
    (scenarioData 4) freshGenerator hN
  refine ⟨hN, h1, ?_⟩
  have h5 : (scenarioData 4).angle_resolution_ = 4 := rfl
  rw [h5] at h4
  omega

/-- C3, as stated, fails: with angle resolution -1 the loop body never runs, and the
call for axis Z returns true instead of false. -/
theorem C3_counterexample_negative_resolution :
    ¬ ((generateAxisGrasps exactMath identityPose grasp_axis_t.Z_AXIS grasp_direction_t.UP
          grasp_rotation_t.HALF (scenarioData (-1)) [] freshGenerator).1 = false ∧
       (generateAxisGrasps exactMath identityPose grasp_axis_t.Z_AXIS grasp_direction_t.UP
          grasp_rotation_t.HALF (scenarioData (-1)) [] freshGenerator).2.1 = [] ∧
       (generateAxisGrasps exactMath identityPose grasp_axis_t.Z_AXIS grasp_direction_t.UP
          grasp_rotation_t.HALF (scenarioData (-1)) [] freshGenerator).2.2.grasp_id
         = freshGenerator.grasp_id) := by
  rw [generateAxisGrasps_Z]
  have h : ¬ (0 ≤ (scenarioData (-1)).angle_resolution_) := by decide
  simp [h]

/-- C3, amended: for every angle resolution `N ≥ 0` the call for axis Z returns false and
leaves the output vector, the counter and the calls received by the sink as they were. -/
theorem C3_z_axis_fails_and_keeps_output (M : MathLib S) (object_pose : Pose S)
    (direction : grasp_direction_t) (rotation : grasp_rotation_t)
    (grasp_data : RobotGraspData S) (possible_grasps : List (Grasp S)) (g : Generator S)
    (hN : 0 ≤ grasp_data.angle_resolution_) :
    (generateAxisGrasps M object_pose grasp_axis_t.Z_AXIS direction rotation grasp_data
        possible_grasps g).1 = false ∧
    (generateAxisGrasps M object_pose grasp_axis_t.Z_AXIS direction rotation grasp_data
        possible_grasps g).2.1 = possible_grasps ∧
    (generateAxisGrasps M object_pose grasp_axis_t.Z_AXIS direction rotation grasp_data
        possible_grasps g).2.2.grasp_id = g.grasp_id ∧
    (generateAxisGrasps M object_pose grasp_axis_t.Z_AXIS direction rotation grasp_data
        possible_grasps g).2.2.sink_calls = g.sink_calls := by
  rw [generateAxisGrasps_Z, if_pos hN]
  exact ⟨rfl, rfl, rfl, rfl⟩

/-- C3 amended, at angle resolution 2 on a vector that already holds the six grasps of a
Y sweep. -/
theorem C3_z_axis_fails_and_keeps_output_witness :
    0 ≤ (scenarioData 2).angle_resolution_ ∧
    (generateAxisGrasps exactMath identityPose grasp_axis_t.Z_AXIS grasp_direction_t.DOWN
        grasp_rotation_t.FULL (scenarioData 2)
        (newGrasps exactMath identityPose grasp_axis_t.Y_AXIS grasp_direction_t.DOWN
          grasp_rotation_t.HALF (scenarioData 2) freshGenerator) freshGenerator).1 = false ∧
    (generateAxisGrasps exactMath identityPose grasp_axis_t.Z_AXIS grasp_direction_t.DOWN
        grasp_rotation_t.FULL (scenarioData 2)
        (newGrasps exactMath identityPose grasp_axis_t.Y_AXIS grasp_direction_t.DOWN
          grasp_rotation_t.HALF (scenarioData 2) freshGenerator) freshGenerator).2.1
      = newGrasps exactMath identityPose grasp_axis_t.Y_AXIS grasp_direction_t.DOWN
          grasp_rotation_t.HALF (scenarioData 2) freshGenerator :=
  have hN : 0 ≤ (scenarioData 2).angle_resolution_ := by decide
  ⟨hN,
   (C3_z_axis_fails_and_keeps_output exactMath identityPose grasp_direction_t.DOWN
      grasp_rotation_t.FULL (scenarioData 2) _ freshGenerator hN).1,
   (C3_z_axis_fails_and_keeps_output exactMath identityPose grasp_direction_t.DOWN
      grasp_rotation_t.FULL (scenarioData 2) _ freshGenerator hN).2.1⟩

/-- C4 fails on the code: one HALF call for axis X at angle resolution 2, from a fresh
generator, names its six grasps Grasp0, Grasp0, Grasp1, Grasp1, Grasp2, Grasp2; the two
grasps of a sample carry the same id. -/
theorem C4_ids_repeat_within_a_sample :
    (generateAxisGrasps exactMath identityPose grasp_axis_t.X_AXIS grasp_direction_t.DOWN
        grasp_rotation_t.HALF (scenarioData 2) [] freshGenerator).2.1.map Grasp.id
      = ["Grasp0", "Grasp0", "Grasp1", "Grasp1", "Grasp2", "Grasp2"] := by
  rw [generateAxisGrasps_out _ _ _ _ _ _ _ _ (by decide)]
  have hk : ((scenarioData 2).angle_resolution_ + 1).toNat = 3 := by decide
  simp only [newGrasps, hk, candidateBlock, newGrasp, candidate, List.nil_append,
    List.cons_append, List.map_cons, List.map_nil]
  decide

/-- C5: over the real numbers, every grasp that `generateAxisGrasps` appends (any axis,
direction, rotation and configuration) and every grasp that `generateAllGrasps` appends has
a quality between 0.1 and 1. -/
theorem C5_quality_between_tenth_and_one (object_pose : Pose ℝ) (axis : grasp_axis_t)
    (direction : grasp_direction_t) (rotation : grasp_rotation_t)
    (grasp_data : RobotGraspData ℝ) (possible_grasps : List (Grasp ℝ)) (g : Generator ℝ) :
    (∀ x ∈ (generateAxisGrasps exactMath object_pose axis direction rotation grasp_data
          possible_grasps g).2.1.drop possible_grasps.length,
        0.1 ≤ x.grasp_quality ∧ x.grasp_quality ≤ 1) ∧
    (∀ x ∈ (generateAllGrasps exactMath object_pose grasp_data
          possible_grasps g).2.1.drop possible_grasps.length,
        0.1 ≤ x.grasp_quality ∧ x.grasp_quality ≤ 1) := by
  constructor
  · intro x hx
    by_cases hz : axis = grasp_axis_t.Z_AXIS
    · subst hz
      rw [generateAxisGrasps_Z] at hx
      split at hx <;> simp at hx
    · rw [generateAxisGrasps_out _ _ _ _ _ _ _ _ hz, List.drop_left] at hx
      exact newGrasps_quality_range _ _ _ _ _ _ x hx
  · intro x hx
    obtain ⟨g1, g2, g3, hout⟩ := generateAllGrasps_out exactMath object_pose grasp_data
      possible_grasps g
    rw [hout, List.drop_left] at hx
    simp only [List.mem_append] at hx
    rcases hx with h | h | h | h <;> exact newGrasps_quality_range _ _ _ _ _ _ x h

/-- C5 at a grasp of the scenario of the specification: the first grasp of the middle
sample is appended and its quality is in range. -/
theorem C5_quality_between_tenth_and_one_witness :
    newGrasp exactMath identityPose grasp_axis_t.Y_AXIS grasp_direction_t.DOWN
        grasp_rotation_t.HALF (scenarioData 2) freshGenerator 1 false
      ∈ (generateAxisGrasps exactMath identityPose grasp_axis_t.Y_AXIS grasp_direction_t.DOWN
          grasp_rotation_t.HALF (scenarioData 2) [] freshGenerator).2.1.drop
            ([] : List (Grasp ℝ)).length ∧
    0.1 ≤ (newGrasp exactMath identityPose grasp_axis_t.Y_AXIS grasp_direction_t.DOWN
        grasp_rotation_t.HALF (scenarioData 2) freshGenerator 1 false).grasp_quality ∧
    (newGrasp exactMath identityPose grasp_axis_t.Y_AXIS grasp_direction_t.DOWN
        grasp_rotation_t.HALF (scenarioData 2) freshGenerator 1 false).grasp_quality ≤ 1 := by
  have hmem : newGrasp exactMath identityPose grasp_axis_t.Y_AXIS grasp_direction_t.DOWN
        grasp_rotation_t.HALF (scenarioData 2) freshGenerator 1 false
      ∈ (generateAxisGrasps exactMath identityPose grasp_axis_t.Y_AXIS grasp_direction_t.DOWN
          grasp_rotation_t.HALF (scenarioData 2) [] freshGenerator).2.1.drop
            ([] : List (Grasp ℝ)).length := by
    have h := generateAxisGrasps_getElem?_even exactMath identityPose grasp_axis_t.Y_AXIS
      grasp_direction_t.DOWN grasp_rotation_t.HALF (scenarioData 2) [] freshGenerator
      (by decide) 1 (by decide)
    simp only [List.length_nil, List.drop_zero]
    exact List.mem_iff_getElem?.mpr ⟨_, h⟩
  exact ⟨hmem, (C5_quality_between_tenth_and_one identityPose grasp_axis_t.Y_AXIS
    grasp_direction_t.DOWN grasp_rotation_t.HALF (scenarioData 2) [] freshGenerator).1 _ hmem⟩

/-- C6: over the real numbers, for axis X or Y, rotation HALF and angle resolution
`N > 0`, the two grasps appended for sample `i` (`0 ≤ i ≤ N`, at indices `2 * i` and
`2 * i + 1` of the appended block) both have quality `max (sin (i * pi / N)) 0.1`; and in
the scenario identity pose, grasp depth 0.1, `N = 2`, axis Y, direction DOWN the call
gives six grasps with qualities 0.1, 0.1, 1, 1, 0.1, 0.1. -/
theorem C6_half_rotation_quality_is_floored_sine :
    (∀ (object_pose : Pose ℝ) (axis : grasp_axis_t) (direction : grasp_direction_t)
        (grasp_data : RobotGraspData ℝ) (possible_grasps : List (Grasp ℝ)) (g : Generator ℝ),
        (axis = grasp_axis_t.X_AXIS ∨ axis = grasp_axis_t.Y_AXIS) →
        0 < grasp_data.angle_resolution_ →
        ∀ i : Nat, (i : Int) ≤ grasp_data.angle_resolution_ →
        ∃ a b : Grasp ℝ,
          (generateAxisGrasps exactMath object_pose axis direction grasp_rotation_t.HALF
              grasp_data possible_grasps g).2.1[possible_grasps.length + 2 * i]? = some a ∧
          (generateAxisGrasps exactMath object_pose axis direction grasp_rotation_t.HALF
              grasp_data possible_grasps g).2.1[possible_grasps.length + 2 * i + 1]? = some b ∧
          a.grasp_quality
            = max (Real.sin ((i : ℝ) * Real.pi / (grasp_data.angle_resolution_ : ℝ))) 0.1 ∧
          b.grasp_quality
            = max (Real.sin ((i : ℝ) * Real.pi / (grasp_data.angle_resolution_ : ℝ))) 0.1) ∧
    (generateAxisGrasps exactMath identityPose grasp_axis_t.Y_AXIS grasp_direction_t.DOWN
        grasp_rotation_t.HALF (scenarioData 2) [] freshGenerator).2.1.map Grasp.grasp_quality
      = [0.1, 0.1, 1, 1, 0.1, 0.1] := by
  constructor
  · intro object_pose axis direction grasp_data possible_grasps g hax _ i hi
    have hz : axis ≠ grasp_axis_t.Z_AXIS := by
      rcases hax with h | h <;> rw [h] <;> decide
    exact ⟨_, _,
      generateAxisGrasps_getElem?_even exactMath object_pose axis direction
        grasp_rotation_t.HALF grasp_data possible_grasps g hz i hi,
      generateAxisGrasps_getElem?_odd exactMath object_pose axis direction
        grasp_rotation_t.HALF grasp_data possible_grasps g hz i hi,
      newGrasp_quality_half _ _ _ _ _ _ _, newGrasp_quality_half _ _ _ _ _ _ _⟩
  · rw [generateAxisGrasps_out _ _ _ _ _ _ _ _ (by decide)]
    have hk : ((scenarioData 2).angle_resolution_ + 1).toNat = 3 := by decide
    have hN : (((scenarioData 2).angle_resolution_ : Int) : ℝ) = 2 := by
      simp [scenarioData]
    simp only [newGrasps, hk, candidateBlock, List.nil_append, List.cons_append,
      List.map_cons, List.map_nil, newGrasp_quality_half, hN]
    have h0 : Real.sin (((0 : Nat) : ℝ) * Real.pi / 2) = 0 := by simp
    have h1 : Real.sin (((1 : Nat) : ℝ) * Real.pi / 2) = 1 := by simp
    have h2 : Real.sin (((2 : Nat) : ℝ) * Real.pi / 2) = 0 := by
      have : ((2 : Nat) : ℝ) * Real.pi / 2 = Real.pi := by push_cast; ring
      rw [this, Real.sin_pi]
    rw [h0, h1, h2]
    norm_num

/-- C6 at the middle sample of the scenario: the grasps at indices 2 and 3 have quality
`max (sin (1 * pi / 2)) 0.1`. -/
theorem C6_half_rotation_quality_is_floored_sine_witness :
    0 < (scenarioData 2).angle_resolution_ ∧
    ((1 : Nat) : Int) ≤ (scenarioData 2).angle_resolution_ ∧
    ∃ a b : Grasp ℝ,
      (generateAxisGrasps exactMath identityPose grasp_axis_t.Y_AXIS grasp_direction_t.DOWN
          grasp_rotation_t.HALF (scenarioData 2) [] freshGenerator).2.1[
            ([] : List (Grasp ℝ)).length + 2 * 1]? = some a ∧
      (generateAxisGrasps exactMath identityPose grasp_axis_t.Y_AXIS grasp_direction_t.DOWN
          grasp_rotation_t.HALF (scenarioData 2) [] freshGenerator).2.1[
            ([] : List (Grasp ℝ)).length + 2 * 1 + 1]? = some b ∧
      a.grasp_quality
        = max (Real.sin (((1 : Nat) : ℝ) * Real.pi
            / (((scenarioData 2).angle_resolution_ : Int) : ℝ))) 0.1 ∧
      b.grasp_quality
        = max (Real.sin (((1 : Nat) : ℝ) * Real.pi
            / (((scenarioData 2).angle_resolution_ : Int) : ℝ))) 0.1 :=
  ⟨by decide, by decide,
   C6_half_rotation_quality_is_floored_sine.1 identityPose grasp_axis_t.Y_AXIS
     grasp_direction_t.DOWN (scenarioData 2) [] freshGenerator (Or.inr rfl) (by decide) 1
     (by decide)⟩

/-- C7: over the real numbers, for axis X or Y, rotation HALF and angle resolution
`N > 0`, take two neighbouring samples `i` and `i + 1` (`i + 1 ≤ N`): their grasps sit at
indices `2 * i`, `2 * i + 1`, `2 * i + 2`, `2 * i + 3` of the appended block, the two
grasps of a sample have the same quality, the quality does not decrease from sample `i` to
sample `i + 1` when `(i + 1) * pi / N ≤ pi / 2`, and does not increase when
`i * pi / N ≥ pi / 2`. -/
theorem C7_quality_rises_then_falls (object_pose : Pose ℝ) (axis : grasp_axis_t)
    (direction : grasp_direction_t) (grasp_data : RobotGraspData ℝ)
    (possible_grasps : List (Grasp ℝ)) (g : Generator ℝ)
    (hax : axis = grasp_axis_t.X_AXIS ∨ axis = grasp_axis_t.Y_AXIS)
    (hN : 0 < grasp_data.angle_resolution_)
    (i : Nat) (hi : (i : Int) + 1 ≤ grasp_data.angle_resolution_) :
    ∃ a b c d : Grasp ℝ,
      (generateAxisGrasps exactMath object_pose axis direction grasp_rotation_t.HALF
          grasp_data possible_grasps g).2.1[possible_grasps.length + 2 * i]? = some a ∧
      (generateAxisGrasps exactMath object_pose axis direction grasp_rotation_t.HALF
          grasp_data possible_grasps g).2.1[possible_grasps.length + 2 * i + 1]? = some b ∧
      (generateAxisGrasps exactMath object_pose axis direction grasp_rotation_t.HALF
          grasp_data possible_grasps g).2.1[possible_grasps.length + 2 * i + 2]? = some c ∧
      (generateAxisGrasps exactMath object_pose axis direction grasp_rotation_t.HALF
          grasp_data possible_grasps g).2.1[possible_grasps.length + 2 * i + 3]? = some d ∧
      a.grasp_quality = b.grasp_quality ∧
      c.grasp_quality = d.grasp_quality ∧
      (((i : ℝ) + 1) * Real.pi / (grasp_data.angle_resolution_ : ℝ) ≤ Real.pi / 2 →
        b.grasp_quality ≤ c.grasp_quality) ∧
      ((i : ℝ) * Real.pi / (grasp_data.angle_resolution_ : ℝ) ≥ Real.pi / 2 →
        b.grasp_quality ≥ c.grasp_quality) := by
  have hz : axis ≠ grasp_axis_t.Z_AXIS := by
    rcases hax with h | h <;> rw [h] <;> decide
  have hNr : (0 : ℝ) < (grasp_data.angle_resolution_ : ℝ) := by exact_mod_cast hN
  have hir : ((i : ℝ) + 1) ≤ (grasp_data.angle_resolution_ : ℝ) := by exact_mod_cast hi
  have hpos : 0 ≤ (i : ℝ) * Real.pi / (grasp_data.angle_resolution_ : ℝ) :=
    div_nonneg (mul_nonneg (Nat.cast_nonneg i) Real.pi_pos.le) hNr.le
  have hstep : (i : ℝ) * Real.pi / (grasp_data.angle_resolution_ : ℝ)
      ≤ ((i : ℝ) + 1) * Real.pi / (grasp_data.angle_resolution_ : ℝ) := by
    apply div_le_div_of_nonneg_right _ hNr.le
    nlinarith [Real.pi_pos]
  have htop : ((i : ℝ) + 1) * Real.pi / (grasp_data.angle_resolution_ : ℝ) ≤ Real.pi := by
    rw [div_le_iff₀ hNr]
    nlinarith [Real.pi_pos]
  have e2 : possible_grasps.length + 2 * i + 2 = possible_grasps.length + 2 * (i + 1) := by
    ring
  have e3 : possible_grasps.length + 2 * i + 3
      = possible_grasps.length + 2 * (i + 1) + 1 := by ring
  have hcast : (((i + 1 : Nat) : ℝ)) = (i : ℝ) + 1 := by push_cast; ring
  refine ⟨newGrasp exactMath object_pose axis direction grasp_rotation_t.HALF grasp_data g i
      false,
    newGrasp exactMath object_pose axis direction grasp_rotation_t.HALF grasp_data g i true,
    newGrasp exactMath object_pose axis direction grasp_rotation_t.HALF grasp_data g (i + 1)
      false,
    newGrasp exactMath object_pose axis direction grasp_rotation_t.HALF grasp_data g (i + 1)
      true,
    generateAxisGrasps_getElem?_even exactMath object_pose axis direction
      grasp_rotation_t.HALF grasp_data possible_grasps g hz i (by omega),
    generateAxisGrasps_getElem?_odd exactMath object_pose axis direction
      grasp_rotation_t.HALF grasp_data possible_grasps g hz i (by omega),
    ?_, ?_, ?_, ?_, ?_, ?_⟩
  · rw [e2]
    exact generateAxisGrasps_getElem?_even exactMath object_pose axis direction
      grasp_rotation_t.HALF grasp_data possible_grasps g hz (i + 1) (by push_cast; omega)
  · rw [e3]
    exact generateAxisGrasps_getElem?_odd exactMath object_pose axis direction
      grasp_rotation_t.HALF grasp_data possible_grasps g hz (i + 1) (by push_cast; omega)
  · rw [newGrasp_quality_half, newGrasp_quality_half]
  · rw [newGrasp_quality_half, newGrasp_quality_half]
  · intro h
    rw [newGrasp_quality_half, newGrasp_quality_half, hcast]
    exact flooredSine_mono hpos hstep h
  · intro h
    rw [newGrasp_quality_half, newGrasp_quality_half, hcast]
    exact flooredSine_anti h hstep htop

/-- C7 at the scenario of the specification, samples 1 and 2 (`1 * pi / 2 ≥ pi / 2`). -/
theorem C7_quality_rises_then_falls_witness :
    0 < (scenarioData 2).angle_resolution_ ∧
    ((1 : Nat) : Int) + 1 ≤ (scenarioData 2).angle_resolution_ ∧
    ∃ a b c d : Grasp ℝ,
      (generateAxisGrasps exactMath identityPose grasp_axis_t.Y_AXIS grasp_direction_t.DOWN
          grasp_rotation_t.HALF (scenarioData 2) [] freshGenerator).2.1[
            ([] : List (Grasp ℝ)).length + 2 * 1]? = some a ∧
      (generateAxisGrasps exactMath identityPose grasp_axis_t.Y_AXIS grasp_direction_t.DOWN
          grasp_rotation_t.HALF (scenarioData 2) [] freshGenerator).2.1[
            ([] : List (Grasp ℝ)).length + 2 * 1 + 1]? = some b ∧
      (generateAxisGrasps exactMath identityPose grasp_axis_t.Y_AXIS grasp_direction_t.DOWN
          grasp_rotation_t.HALF (scenarioData 2) [] freshGenerator).2.1[
            ([] : List (Grasp ℝ)).length + 2 * 1 + 2]? = some c ∧
      (generateAxisGrasps exactMath identityPose grasp_axis_t.Y_AXIS grasp_direction_t.DOWN
          grasp_rotation_t.HALF (scenarioData 2) [] freshGenerator).2.1[
            ([] : List (Grasp ℝ)).length + 2 * 1 + 3]? = some d ∧
      a.grasp_quality = b.grasp_quality ∧
      c.grasp_quality = d.grasp_quality ∧
      ((((1 : Nat) : ℝ) + 1) * Real.pi / (((scenarioData 2).angle_resolution_ : Int) : ℝ)
          ≤ Real.pi / 2 → b.grasp_quality ≤ c.grasp_quality) ∧
      (((1 : Nat) : ℝ) * Real.pi / (((scenarioData 2).angle_resolution_ : Int) : ℝ)
          ≥ Real.pi / 2 → b.grasp_quality ≥ c.grasp_quality) :=
  ⟨by decide, by decide,
   C7_quality_rises_then_falls identityPose grasp_axis_t.Y_AXIS grasp_direction_t.DOWN
     (scenarioData 2) [] freshGenerator (Or.inr rfl) (by decide) 1 (by decide)⟩

/-- C8, as stated, fails: the two distances of a gripper translation are `float32`
fields, and at the scenario of the specification (desired distance 0.6) the grasps at
indices 2 and 3 hold the binary32 nearest to 0.6, not 0.6. -/
theorem C8_counterexample_distance_is_narrowed :
    ¬ ∃ a b : Grasp ℝ,
      (generateAxisGrasps exactMath identityPose grasp_axis_t.Y_AXIS grasp_direction_t.DOWN
          grasp_rotation_t.HALF (scenarioData 2) [] freshGenerator).2.1[2]? = some a ∧
      (generateAxisGrasps exactMath identityPose grasp_axis_t.Y_AXIS grasp_direction_t.DOWN
          grasp_rotation_t.HALF (scenarioData 2) [] freshGenerator).2.1[3]? = some b ∧
      a.grasp_pose = b.grasp_pose ∧
      a.grasp_quality = b.grasp_quality ∧
      (a.pre_grasp_posture = (scenarioData 2).pre_grasp_posture_ ∧
        b.pre_grasp_posture = (scenarioData 2).pre_grasp_posture_) ∧
      (a.grasp_posture = (scenarioData 2).grasp_posture_ ∧
        b.grasp_posture = (scenarioData 2).grasp_posture_) ∧
      (a.max_contact_force = 0 ∧ b.max_contact_force = 0) ∧
      (a.pre_grasp_approach.desired_distance
          = (scenarioData 2).approach_retreat_desired_dist_ ∧
        a.pre_grasp_approach.min_distance = (scenarioData 2).approach_retreat_min_dist_ ∧
        a.post_grasp_retreat.desired_distance
          = (scenarioData 2).approach_retreat_desired_dist_ ∧
        a.post_grasp_retreat.min_distance = (scenarioData 2).approach_retreat_min_dist_) ∧
      (b.pre_grasp_approach.desired_distance
          = (scenarioData 2).approach_retreat_desired_dist_ ∧
        b.pre_grasp_approach.min_distance = (scenarioData 2).approach_retreat_min_dist_ ∧
        b.post_grasp_retreat.desired_distance
          = (scenarioData 2).approach_retreat_desired_dist_ ∧
        b.post_grasp_retreat.min_distance = (scenarioData 2).approach_retreat_min_dist_) ∧
      (a.pre_grasp_approach.direction.header.frame_id = (scenarioData 2).base_link_ ∧
        a.pre_grasp_approach.direction.vector = { x := 0, y := 0, z := -1 } ∧
        a.post_grasp_retreat.direction.header.frame_id = (scenarioData 2).base_link_ ∧
        a.post_grasp_retreat.direction.vector = { x := 0, y := 0, z := 1 }) ∧
      (b.pre_grasp_approach.direction.header.frame_id = (scenarioData 2).ee_parent_link_ ∧
        b.pre_grasp_approach.direction.vector = { x := 0, y := 0, z := 1 } ∧
        b.post_grasp_retreat.direction.header.frame_id = (scenarioData 2).ee_parent_link_ ∧
        b.post_grasp_retreat.direction.vector = { x := 0, y := 0, z := -1 }) := by
  rintro ⟨a, b, ha, _, _, _, _, _, _, ⟨hd, _⟩, _⟩
  have hget := generateAxisGrasps_getElem?_even exactMath identityPose grasp_axis_t.Y_AXIS
    grasp_direction_t.DOWN grasp_rotation_t.HALF (scenarioData 2) [] freshGenerator
    (by decide) 1 (by decide)
  have hget2 : (generateAxisGrasps exactMath identityPose grasp_axis_t.Y_AXIS
      grasp_direction_t.DOWN grasp_rotation_t.HALF (scenarioData 2) []
      freshGenerator).2.1[2]? = some (newGrasp exactMath identityPose grasp_axis_t.Y_AXIS
        grasp_direction_t.DOWN grasp_rotation_t.HALF (scenarioData 2) freshGenerator 1
        false) := hget
  rw [hget2] at ha
  have hab := Option.some.inj ha
  rw [← hab] at hd
  have h6 : roundToFloat32 0.6 = 0.6 := hd
  rw [roundToFloat32_six_tenths] at h6
  norm_num at h6

/-- C8, amended: after a call of `generateAxisGrasps` that returned true, for every sample
`i` (`0 ≤ i ≤ N`) the grasps at indices `2 * i` and `2 * i + 1` of the appended block have
the same stamped pose and the same quality, both carry the postures of the configuration,
maximal contact force 0 and, as desired and minimal approach and retreat distances, the
values of the configuration converted to `float32`; the first approaches along (0, 0, -1)
and retreats along (0, 0, 1) in the base frame, the second approaches along (0, 0, 1) and
retreats along (0, 0, -1) in the parent frame of the end effector. -/
theorem C8_two_variants_per_sample (M : MathLib S) (object_pose : Pose S)
    (axis : grasp_axis_t) (direction : grasp_direction_t) (rotation : grasp_rotation_t)
    (grasp_data : RobotGraspData S) (possible_grasps : List (Grasp S)) (g : Generator S)
    (hok : (generateAxisGrasps M object_pose axis direction rotation grasp_data
        possible_grasps g).1 = true)
    (i : Nat) (hi : (i : Int) ≤ grasp_data.angle_resolution_) :
    ∃ a b : Grasp S,
      (generateAxisGrasps M object_pose axis direction rotation grasp_data
          possible_grasps g).2.1[possible_grasps.length + 2 * i]? = some a ∧
      (generateAxisGrasps M object_pose axis direction rotation grasp_data
          possible_grasps g).2.1[possible_grasps.length + 2 * i + 1]? = some b ∧
      a.grasp_pose = b.grasp_pose ∧
      a.grasp_quality = b.grasp_quality ∧
      (a.pre_grasp_posture = grasp_data.pre_grasp_posture_ ∧
        b.pre_grasp_posture = grasp_data.pre_grasp_posture_) ∧
      (a.grasp_posture = grasp_data.grasp_posture_ ∧
        b.grasp_posture = grasp_data.grasp_posture_) ∧
      (a.max_contact_force = 0 ∧ b.max_contact_force = 0) ∧
      (a.pre_grasp_approach.desired_distance
          = M.toFloat32 grasp_data.approach_retreat_desired_dist_ ∧
        a.pre_grasp_approach.min_distance
          = M.toFloat32 grasp_data.approach_retreat_min_dist_ ∧
        a.post_grasp_retreat.desired_distance
          = M.toFloat32 grasp_data.approach_retreat_desired_dist_ ∧
        a.post_grasp_retreat.min_distance
          = M.toFloat32 grasp_data.approach_retreat_min_dist_) ∧
      (b.pre_grasp_approach.desired_distance
          = M.toFloat32 grasp_data.approach_retreat_desired_dist_ ∧
        b.pre_grasp_approach.min_distance
          = M.toFloat32 grasp_data.approach_retreat_min_dist_ ∧
        b.post_grasp_retreat.desired_distance
          = M.toFloat32 grasp_data.approach_retreat_desired_dist_ ∧
        b.post_grasp_retreat.min_distance
          = M.toFloat32 grasp_data.approach_retreat_min_dist_) ∧
      (a.pre_grasp_approach.direction.header.frame_id = grasp_data.base_link_ ∧
        a.pre_grasp_approach.direction.vector = { x := 0, y := 0, z := -1 } ∧
        a.post_grasp_retreat.direction.header.frame_id = grasp_data.base_link_ ∧
        a.post_grasp_retreat.direction.vector = { x := 0, y := 0, z := 1 }) ∧
      (b.pre_grasp_approach.direction.header.frame_id = grasp_data.ee_parent_link_ ∧
        b.pre_grasp_approach.direction.vector = { x := 0, y := 0, z := 1 } ∧
        b.post_grasp_retreat.direction.header.frame_id = grasp_data.ee_parent_link_ ∧
        b.post_grasp_retreat.direction.vector = { x := 0, y := 0, z := -1 }) := by
  have hz : axis ≠ grasp_axis_t.Z_AXIS := by
    intro h
    subst h
    rw [generateAxisGrasps_Z, if_pos (by omega)] at hok
    exact Bool.noConfusion hok
  refine ⟨newGrasp M object_pose axis direction rotation grasp_data g i false,
    newGrasp M object_pose axis direction rotation grasp_data g i true,
    generateAxisGrasps_getElem?_even M object_pose axis direction rotation grasp_data
      possible_grasps g hz i hi,
    generateAxisGrasps_getElem?_odd M object_pose axis direction rotation grasp_data
      possible_grasps g hz i hi,
    rfl, rfl, ⟨rfl, rfl⟩, ⟨rfl, rfl⟩, ⟨rfl, rfl⟩, ⟨rfl, rfl, rfl, rfl⟩, ⟨rfl, rfl, rfl, rfl⟩,
    ⟨rfl, rfl, rfl, rfl⟩, ⟨rfl, rfl, rfl, rfl⟩⟩

/-- C8 amended, at the middle sample of the scenario of the specification: the desired
distance held by the grasp at index 2 is the binary32 nearest to 0.6. -/
theorem C8_two_variants_per_sample_witness :
    (generateAxisGrasps exactMath identityPose grasp_axis_t.Y_AXIS grasp_direction_t.DOWN
        grasp_rotation_t.HALF (scenarioData 2) [] freshGenerator).1 = true ∧
    ((1 : Nat) : Int) ≤ (scenarioData 2).angle_resolution_ ∧
    ∃ a b : Grasp ℝ,
      (generateAxisGrasps exactMath identityPose grasp_axis_t.Y_AXIS grasp_direction_t.DOWN
          grasp_rotation_t.HALF (scenarioData 2) [] freshGenerator).2.1[2]? = some a ∧
      (generateAxisGrasps exactMath identityPose grasp_axis_t.Y_AXIS grasp_direction_t.DOWN
          grasp_rotation_t.HALF (scenarioData 2) [] freshGenerator).2.1[3]? = some b ∧
      a.grasp_pose = b.grasp_pose ∧
      a.grasp_quality = b.grasp_quality ∧
      a.pre_grasp_approach.desired_distance = roundToFloat32 0.6 ∧
      a.pre_grasp_approach.direction.header.frame_id = "base_link" ∧
      a.pre_grasp_approach.direction.vector = { x := 0, y := 0, z := -1 } ∧
      b.pre_grasp_approach.direction.header.frame_id = "gripper_link" ∧
      b.pre_grasp_approach.direction.vector = { x := 0, y := 0, z := 1 } := by
  have hok : (generateAxisGrasps exactMath identityPose grasp_axis_t.Y_AXIS
      grasp_direction_t.DOWN grasp_rotation_t.HALF (scenarioData 2) []
      freshGenerator).1 = true := by
    rw [generateAxisGrasps_spec _ _ _ _ _ _ _ _ (by decide)]
  have hi : ((1 : Nat) : Int) ≤ (scenarioData 2).angle_resolution_ := by decide
  obtain ⟨a, b, ha, hb, h1, h2, _, _, _, ⟨hd, _⟩, _, ⟨h3, h4, _, _⟩, ⟨h5, h6, _, _⟩⟩ :=
    C8_two_variants_per_sample exactMath identityPose grasp_axis_t.Y_AXIS
      grasp_direction_t.DOWN grasp_rotation_t.HALF (scenarioData 2) [] freshGenerator hok 1 hi
  exact ⟨hok, hi, a, b, ha, hb, h1, h2, hd, h3, h4, h5, h6⟩

/-- C9: two calls of `generateAxisGrasps` with the same object pose, axis, direction,
rotation and configuration, on arbitrary prior vectors and arbitrary generators (counter,
`animate_`, muted sink, clock, calls received so far), return the same value, and the
blocks they append agree position by position in everything but the name and the time
stamps: pose, frame, quality, postures, approach, retreat and maximal contact force. -/
theorem C9_appended_block_independent_of_generator (M : MathLib S) (object_pose : Pose S)
    (axis : grasp_axis_t) (direction : grasp_direction_t) (rotation : grasp_rotation_t)
    (grasp_data : RobotGraspData S) (prior1 prior2 : List (Grasp S)) (g1 g2 : Generator S) :
    (generateAxisGrasps M object_pose axis direction rotation grasp_data prior1 g1).1
      = (generateAxisGrasps M object_pose axis direction rotation grasp_data prior2 g2).1 ∧
    ∃ block1 block2 : List (Grasp S),
      (generateAxisGrasps M object_pose axis direction rotation grasp_data prior1 g1).2.1
        = prior1 ++ block1 ∧
      (generateAxisGrasps M object_pose axis direction rotation grasp_data prior2 g2).2.1
        = prior2 ++ block2 ∧
      block1.length = block2.length ∧
      block1.map Grasp.content = block2.map Grasp.content := by
  by_cases hz : axis = grasp_axis_t.Z_AXIS
  · subst hz
    rw [generateAxisGrasps_Z, generateAxisGrasps_Z]
    by_cases hN : 0 ≤ grasp_data.angle_resolution_
    · rw [if_pos hN, if_pos hN]
      exact ⟨rfl, [], [], by simp, by simp, rfl, rfl⟩
    · rw [if_neg hN, if_neg hN]
      exact ⟨rfl, [], [], by simp, by simp, rfl, rfl⟩
  · rw [generateAxisGrasps_spec _ _ _ _ _ _ _ _ hz, generateAxisGrasps_spec _ _ _ _ _ _ _ _ hz]
    refine ⟨rfl, _, _, rfl, rfl, ?_, ?_⟩
    · rw [newGrasps_length, newGrasps_length]
    · unfold newGrasps
      rw [candidateBlock_map, candidateBlock_map]
      congr 1
      funext j b
      exact newGrasp_content M object_pose axis direction rotation grasp_data g1 g2 j b

/-- C10 fails on the code: a generator whose sink reports itself muted and has received
nothing runs one HALF call for axis X at angle resolution 2; afterwards the sink has
received three `publishArrow` calls, one per sample. -/
theorem C10_muted_sink_still_receives_arrows :
    mutedGenerator.muted = true ∧ mutedGenerator.sink_calls = [] ∧
    ∃ p0 p1 p2 : Pose ℝ,
      (generateAxisGrasps exactMath identityPose grasp_axis_t.X_AXIS grasp_direction_t.DOWN
          grasp_rotation_t.HALF (scenarioData 2) [] mutedGenerator).2.2.sink_calls
        = [SinkCall.publishArrow p0, SinkCall.publishArrow p1, SinkCall.publishArrow p2] := by
  refine ⟨rfl, rfl, ?_⟩
  rw [generateAxisGrasps_sink_calls_muted _ _ _ _ _ _ _ _ (by decide) rfl]
  have hk : ((scenarioData 2).angle_resolution_ + 1).toNat = 3 := by decide
  simp only [newArrows, hk, arrowBlock]
  exact ⟨_, _, _, rfl⟩

/-- C13, as stated, fails: the counter is a 32-bit `int`.  Started at 2147483646, a HALF
call for axis Y at angle resolution 2 leaves the counter at -2147483647, not at
2147483649 (and names the last sample Grasp-2147483648). -/
theorem C13_counterexample_counter_wraps :
    ¬ ((∀ i : Nat, (i : Int) ≤ (scenarioData 2).angle_resolution_ →
        ∃ a b : Grasp ℝ,
          (generateAxisGrasps exactMath identityPose grasp_axis_t.Y_AXIS
              grasp_direction_t.DOWN grasp_rotation_t.HALF (scenarioData 2) []
              { freshGenerator with grasp_id := 2147483646 }).2.1[
                ([] : List (Grasp ℝ)).length + 2 * i]? = some a ∧
          (generateAxisGrasps exactMath identityPose grasp_axis_t.Y_AXIS
              grasp_direction_t.DOWN grasp_rotation_t.HALF (scenarioData 2) []
              { freshGenerator with grasp_id := 2147483646 }).2.1[
                ([] : List (Grasp ℝ)).length + 2 * i + 1]? = some b ∧
          a.id = "Grasp" ++ toString ((2147483646 : Int) + (i : Int)) ∧
          b.id = "Grasp" ++ toString ((2147483646 : Int) + (i : Int))) ∧
      (generateAxisGrasps exactMath identityPose grasp_axis_t.Y_AXIS grasp_direction_t.DOWN
          grasp_rotation_t.HALF (scenarioData 2) []
          { freshGenerator with grasp_id := 2147483646 }).2.2.grasp_id
        = 2147483646 + (scenarioData 2).angle_resolution_ + 1) := by
  rintro ⟨_, h⟩
  rw [(generateAxisGrasps_gen _ _ _ _ _ _ _ _ (by decide)).1] at h
  revert h
  decide

/-- C13, amended: a call of `generateAxisGrasps` for axis X or Y with angle resolution
`N ≥ 0`, started with the counter at a 32-bit value `c` with `c + N + 1 ≤ 2147483647`
(the counter does not wrap around during the call), names both grasps of sample `i`
(`0 ≤ i ≤ N`, at indices `2 * i` and `2 * i + 1` of the appended block) "Grasp" followed by
the decimal form of `c + i`, and leaves the counter at `c + N + 1`: the counter advances
once per sample. -/
theorem C13_counter_advances_once_per_sample (M : MathLib S) (object_pose : Pose S)
    (axis : grasp_axis_t) (direction : grasp_direction_t) (rotation : grasp_rotation_t)
    (grasp_data : RobotGraspData S) (possible_grasps : List (Grasp S)) (g : Generator S)
    (hax : axis = grasp_axis_t.X_AXIS ∨ axis = grasp_axis_t.Y_AXIS)
    (hN : 0 ≤ grasp_data.angle_resolution_)
    (hlo : -2147483648 ≤ g.grasp_id)
    (hhi : g.grasp_id + grasp_data.angle_resolution_ + 1 ≤ 2147483647) :
    (∀ i : Nat, (i : Int) ≤ grasp_data.angle_resolution_ →
      ∃ a b : Grasp S,
        (generateAxisGrasps M object_pose axis direction rotation grasp_data
            possible_grasps g).2.1[possible_grasps.length + 2 * i]? = some a ∧
        (generateAxisGrasps M object_pose axis direction rotation grasp_data
            possible_grasps g).2.1[possible_grasps.length + 2 * i + 1]? = some b ∧
        a.id = "Grasp" ++ toString (g.grasp_id + (i : Int)) ∧
        b.id = "Grasp" ++ toString (g.grasp_id + (i : Int))) ∧
    (generateAxisGrasps M object_pose axis direction rotation grasp_data
        possible_grasps g).2.2.grasp_id = g.grasp_id + grasp_data.angle_resolution_ + 1 := by
  have hz : axis ≠ grasp_axis_t.Z_AXIS := by
    rcases hax with h | h <;> rw [h] <;> decide
  constructor
  · intro i hi
    have hc : counterAfter g.grasp_id i = g.grasp_id + (i : Int) :=
      counterAfter_of_range _ _ hlo (by omega)
    refine ⟨newGrasp M object_pose axis direction rotation grasp_data g i false,
      newGrasp M object_pose axis direction rotation grasp_data g i true,
      generateAxisGrasps_getElem?_even M object_pose axis direction rotation grasp_data
        possible_grasps g hz i hi,
      generateAxisGrasps_getElem?_odd M object_pose axis direction rotation grasp_data
        possible_grasps g hz i hi, ?_, ?_⟩
    · show "Grasp" ++ toString (counterAfter g.grasp_id i) = _
      rw [hc]
    · show "Grasp" ++ toString (counterAfter g.grasp_id i) = _
      rw [hc]
  · rw [(generateAxisGrasps_gen M object_pose axis direction rotation grasp_data
      possible_grasps g hz).1,
      counterAfter_of_range _ _ hlo (by rw [Int.toNat_of_nonneg (by omega)]; omega),
      Int.toNat_of_nonneg (by omega)]
    ring

/-- C13 amended, at the scenario of the specification, started with the counter at 7: the
grasps at indices 4 and 5 (sample 2) are both named Grasp9 and the counter ends at 10. -/
theorem C13_counter_advances_once_per_sample_witness :
    0 ≤ (scenarioData 2).angle_resolution_ ∧
    (-2147483648 : Int) ≤ 7 ∧
    (7 : Int) + (scenarioData 2).angle_resolution_ + 1 ≤ 2147483647 ∧
    (∃ a b : Grasp ℝ,
      (generateAxisGrasps exactMath identityPose grasp_axis_t.Y_AXIS grasp_direction_t.DOWN
          grasp_rotation_t.HALF (scenarioData 2) []
          { freshGenerator with grasp_id := 7 }).2.1[4]? = some a ∧
      (generateAxisGrasps exactMath identityPose grasp_axis_t.Y_AXIS grasp_direction_t.DOWN
          grasp_rotation_t.HALF (scenarioData 2) []
          { freshGenerator with grasp_id := 7 }).2.1[5]? = some b ∧
      a.id = "Grasp9" ∧ b.id = "Grasp9") ∧
    (generateAxisGrasps exactMath identityPose grasp_axis_t.Y_AXIS grasp_direction_t.DOWN
        grasp_rotation_t.HALF (scenarioData 2) []
        { freshGenerator with grasp_id := 7 }).2.2.grasp_id = 10 := by
  have hN : 0 ≤ (scenarioData 2).angle_resolution_ := by decide
  have hlo : (-2147483648 : Int) ≤ 7 := by decide
  have hhi : (7 : Int) + (scenarioData 2).angle_resolution_ + 1 ≤ 2147483647 := by decide
  obtain ⟨h1, h2⟩ := C13_counter_advances_once_per_sample exactMath identityPose
    grasp_axis_t.Y_AXIS grasp_direction_t.DOWN grasp_rotation_t.HALF (scenarioData 2) []
    { freshGenerator with grasp_id := 7 } (Or.inr rfl) hN hlo hhi
  obtain ⟨a, b, ha, hb, hia, hib⟩ := h1 2 (by decide)
  refine ⟨hN, hlo, hhi, ⟨a, b, ha, hb, ?_, ?_⟩, ?_⟩
  · rw [hia]; decide
  · rw [hib]; decide
  · rw [h2]; decide

/-- C12: over the real numbers, for axis X and for axis Y, every angle `theta1`, every
direction (`theta2` is `pi` for DOWN and 0 for UP) and every grasp depth, the switch of the
loop body yields a local grasp pose whose linear part `R` is a proper rotation (`R * Rᵀ`
and `Rᵀ * R` are the identity, the determinant is 1) and whose translation is
`-graspDepth * (R * (1, 0, 0))`. -/
theorem C12_local_pose_faces_the_object (axis : grasp_axis_t)
    (hax : axis = grasp_axis_t.X_AXIS ∨ axis = grasp_axis_t.Y_AXIS)
    (radius theta1 : ℝ) (direction : grasp_direction_t) :
    ∃ p : Affine3 ℝ,
      graspPoseOfAxis exactMath axis radius theta1 (theta2Of exactMath direction) = some p ∧
      p.linear.IsProperRotation ∧
      p.translation = Vec3.scale (-radius) (p.linear.mulVec { x := 1, y := 0, z := 0 }) := by
  obtain ⟨hs, hc⟩ := theta2Of_sin_cos direction
  rcases hax with h | h
  · subst h
    refine ⟨_, graspPoseOfAxis_X radius theta1 (theta2Of exactMath direction),
      rotation_X_proper theta1 _ _ hs hc, ?_⟩
    simp only [Vec3.scale, Mat3.mulVec, Vec3.mk.injEq]
    refine ⟨?_, ?_, ?_⟩ <;> ring
  · subst h
    refine ⟨_, graspPoseOfAxis_Y radius theta1 (theta2Of exactMath direction),
      rotation_Y_proper theta1 _ _ hs hc, ?_⟩
    simp only [Vec3.scale, Mat3.mulVec, Vec3.mk.injEq]
    refine ⟨?_, ?_, ?_⟩ <;> ring

/-- C12 at axis Y, direction DOWN, grasp depth 0.1 and `theta1 = pi / 2`, the middle
sample of the scenario of the specification. -/
theorem C12_local_pose_faces_the_object_witness :
    (grasp_axis_t.Y_AXIS = grasp_axis_t.X_AXIS ∨ grasp_axis_t.Y_AXIS = grasp_axis_t.Y_AXIS) ∧
    ∃ p : Affine3 ℝ,
      graspPoseOfAxis exactMath grasp_axis_t.Y_AXIS 0.1 (Real.pi / 2)
          (theta2Of exactMath grasp_direction_t.DOWN) = some p ∧
      p.linear.IsProperRotation ∧
      p.translation = Vec3.scale (-0.1) (p.linear.mulVec { x := 1, y := 0, z := 0 }) :=
  ⟨Or.inr rfl,
   C12_local_pose_faces_the_object grasp_axis_t.Y_AXIS (Or.inr rfl) 0.1 (Real.pi / 2)
     grasp_direction_t.DOWN⟩

/-- C11: over the real numbers, when the orientation of the object pose is a unit
quaternion, the axis is X or Y and the pose `grasp_pose_to_eef_pose_` of the configuration
has zero translation, every grasp that `generateAxisGrasps` appends (any direction, any
rotation) has its pose position at Euclidean distance `|grasp_depth_|` from the position of
the object pose. -/
theorem C11_position_at_grasp_depth (object_pose : Pose ℝ) (axis : grasp_axis_t)
    (direction : grasp_direction_t) (rotation : grasp_rotation_t)
    (grasp_data : RobotGraspData ℝ) (possible_grasps : List (Grasp ℝ)) (g : Generator ℝ)
    (hq : object_pose.orientation.normSq = 1)
    (hax : axis = grasp_axis_t.X_AXIS ∨ axis = grasp_axis_t.Y_AXIS)
    (heef : grasp_data.grasp_pose_to_eef_pose_.position = { x := 0, y := 0, z := 0 })
    (x : Grasp ℝ)
    (hx : x ∈ (generateAxisGrasps exactMath object_pose axis direction rotation grasp_data
        possible_grasps g).2.1.drop possible_grasps.length) :
    Vec3.dist exactMath x.grasp_pose.pose.position object_pose.position
      = |grasp_data.grasp_depth_| := by
  have hz : axis ≠ grasp_axis_t.Z_AXIS := by
    rcases hax with h | h <;> rw [h] <;> decide
  rw [generateAxisGrasps_out _ _ _ _ _ _ _ _ hz, List.drop_left] at hx
  obtain ⟨j, _, b, hb⟩ := candidateBlock_mem _ _ x hx
  rw [hb, newGrasp_position, heef, mulVec_zero]
  show Real.sqrt (Vec3.distSq ((object_pose.orientation.toRotationMatrix.mulVec _).add
    object_pose.position) object_pose.position) = _
  rw [distSq_rotate_translate _ hq, localGraspPose_normSq _ hax, Real.sqrt_mul_self_eq_abs]

/-- C11 at the first grasp of the middle sample of the scenario of the specification:
its position is at distance `|0.1|` from the origin. -/
theorem C11_position_at_grasp_depth_witness :
    identityPose.orientation.normSq = 1 ∧
    (scenarioData 2).grasp_pose_to_eef_pose_.position = { x := 0, y := 0, z := 0 } ∧
    newGrasp exactMath identityPose grasp_axis_t.Y_AXIS grasp_direction_t.DOWN
        grasp_rotation_t.HALF (scenarioData 2) freshGenerator 1 false
      ∈ (generateAxisGrasps exactMath identityPose grasp_axis_t.Y_AXIS grasp_direction_t.DOWN
          grasp_rotation_t.HALF (scenarioData 2) [] freshGenerator).2.1.drop
            ([] : List (Grasp ℝ)).length ∧
    Vec3.dist exactMath
        (newGrasp exactMath identityPose grasp_axis_t.Y_AXIS grasp_direction_t.DOWN
          grasp_rotation_t.HALF (scenarioData 2) freshGenerator 1 false).grasp_pose.pose.position
        identityPose.position
      = |(scenarioData 2).grasp_depth_| := by
  have hq : identityPose.orientation.normSq = 1 := by
    simp [Quat.normSq, identityPose]
  have heef : (scenarioData 2).grasp_pose_to_eef_pose_.position
      = { x := 0, y := 0, z := 0 } := rfl
  have hmem : newGrasp exactMath identityPose grasp_axis_t.Y_AXIS grasp_direction_t.DOWN
        grasp_rotation_t.HALF (scenarioData 2) freshGenerator 1 false
      ∈ (generateAxisGrasps exactMath identityPose grasp_axis_t.Y_AXIS grasp_direction_t.DOWN
          grasp_rotation_t.HALF (scenarioData 2) [] freshGenerator).2.1.drop
            ([] : List (Grasp ℝ)).length := by
    have h := generateAxisGrasps_getElem?_even exactMath identityPose grasp_axis_t.Y_AXIS
      grasp_direction_t.DOWN grasp_rotation_t.HALF (scenarioData 2) [] freshGenerator
      (by decide) 1 (by decide)
    simp only [List.length_nil, List.drop_zero]
    exact List.mem_iff_getElem?.mpr ⟨_, h⟩
  exact ⟨hq, heef, hmem,
    C11_position_at_grasp_depth identityPose grasp_axis_t.Y_AXIS grasp_direction_t.DOWN
      grasp_rotation_t.HALF (scenarioData 2) [] freshGenerator hq (Or.inr rfl) heef _ hmem⟩

end Claims

end MoveItSimpleGrasps
